import Mathlib

/-!
# UVA-Express: verification of the `calculate-uva` engine

Shallow embedding of the UVA (Austrian VAT pre-declaration, form U30)
calculation engine of the repository.  Monetary amounts are modelled as
rationals; the source's `Math.round(v * 100) / 100` becomes `round2`
(JavaScript `Math.round` rounds half toward plus infinity, i.e.
`⌊x + 1/2⌋`).  The current engine is embedded from
`src/frontend/supabase/functions/calculate-uva/index.ts`; the older
revision of the same function (kept in the repository) is embedded from
`src/unnamed/part_000`.
-/

namespace UVA

/-- `Math.round(v * 100) / 100` over ℚ; JS `Math.round x = ⌊x + 1/2⌋`. -/
def round2 (v : ℚ) : ℚ := (⌊v * 100 + 1/2⌋ : ℤ) / 100

/-- JS `Number(x) || d`: a missing value (`null`/`undefined`, here `none`)
coerces to 0, and both it and an actual 0 are falsy, so they fall back to
the default `d`. -/
def numOr (x : Option ℚ) (d : ℚ) : ℚ :=
  match x with
  | none => d
  | some v => if v = 0 then d else v

/-- JS `s || d` for string fields: `null` and the empty string are falsy. -/
def strOr (x : Option String) (d : String) : String :=
  match x with
  | none => d
  | some s => if s = "" then d else s

/-- An invoice row as read from the `invoices` table.  Numeric and string
columns are nullable, hence `Option`. -/
structure Invoice where
  id : String
  invoice_number : Option String := none
  net_amount : Option ℚ := none
  vat_amount : Option ℚ := none
  gross_amount : Option ℚ := none
  vat_rate : Option ℚ := none
  invoice_type : Option String := none
  tax_treatment : Option String := none

/-- The KZ accumulator map of the current engine: every key of the `kz`
record literal (index.ts lines 165-198), initialized to 0. -/
structure Kz where
  kz000_netto : ℚ := 0
  kz001_netto : ℚ := 0
  kz021_netto : ℚ := 0
  kz022_netto : ℚ := 0
  kz022_ust : ℚ := 0
  kz029_netto : ℚ := 0
  kz029_ust : ℚ := 0
  kz006_netto : ℚ := 0
  kz006_ust : ℚ := 0
  kz037_netto : ℚ := 0
  kz037_ust : ℚ := 0
  kz052_netto : ℚ := 0
  kz052_ust : ℚ := 0
  kz007_netto : ℚ := 0
  kz007_ust : ℚ := 0
  kz011_netto : ℚ := 0
  kz012_netto : ℚ := 0
  kz015_netto : ℚ := 0
  kz017_netto : ℚ := 0
  kz018_netto : ℚ := 0
  kz019_netto : ℚ := 0
  kz016_netto : ℚ := 0
  kz020_netto : ℚ := 0
  kz056_ust : ℚ := 0
  kz057_ust : ℚ := 0
  kz048_ust : ℚ := 0
  kz044_ust : ℚ := 0
  kz032_ust : ℚ := 0
  kz070_netto : ℚ := 0
  kz071_netto : ℚ := 0
  kz072_netto : ℚ := 0
  kz072_ust : ℚ := 0
  kz073_netto : ℚ := 0
  kz073_ust : ℚ := 0
  kz008_netto : ℚ := 0
  kz008_ust : ℚ := 0
  kz088_netto : ℚ := 0
  kz088_ust : ℚ := 0
  kz076_netto : ℚ := 0
  kz077_netto : ℚ := 0
  kz060_vorsteuer : ℚ := 0
  kz061_vorsteuer : ℚ := 0
  kz083_vorsteuer : ℚ := 0
  kz065_vorsteuer : ℚ := 0
  kz066_vorsteuer : ℚ := 0
  kz082_vorsteuer : ℚ := 0
  kz087_vorsteuer : ℚ := 0
  kz089_vorsteuer : ℚ := 0
  kz064_vorsteuer : ℚ := 0
  kz062_vorsteuer : ℚ := 0
  kz063_vorsteuer : ℚ := 0
  kz067_vorsteuer : ℚ := 0

/-- `RATE_MAP` of index.ts: `{20: "022", 10: "029", 13: "006", 19: "037",
7: "007"}`; `none` models an absent key. -/
def RATE_MAP (rate : ℚ) : Option String :=
  if rate = 20 then some "022"
  else if rate = 10 then some "029"
  else if rate = 13 then some "006"
  else if rate = 19 then some "037"
  else if rate = 7 then some "007"
  else none

/-- `IG_RATE_MAP` of index.ts: `{20: "072", 10: "073", 13: "008", 19: "088"}`. -/
def IG_RATE_MAP (rate : ℚ) : Option String :=
  if rate = 20 then some "072"
  else if rate = 10 then some "073"
  else if rate = 13 then some "008"
  else if rate = 19 then some "088"
  else none

/-- `kz[rateKZ + "_netto"] += net; kz[rateKZ + "_ust"] += vat` for the
dynamic rate key of the ausgang-normal branch. -/
def addRate (kz : Kz) (key : String) (net vat : ℚ) : Kz :=
  if key = "022" then
    { kz with kz022_netto := kz.kz022_netto + net, kz022_ust := kz.kz022_ust + vat }
  else if key = "029" then
    { kz with kz029_netto := kz.kz029_netto + net, kz029_ust := kz.kz029_ust + vat }
  else if key = "006" then
    { kz with kz006_netto := kz.kz006_netto + net, kz006_ust := kz.kz006_ust + vat }
  else if key = "037" then
    { kz with kz037_netto := kz.kz037_netto + net, kz037_ust := kz.kz037_ust + vat }
  else if key = "052" then
    { kz with kz052_netto := kz.kz052_netto + net, kz052_ust := kz.kz052_ust + vat }
  else if key = "007" then
    { kz with kz007_netto := kz.kz007_netto + net, kz007_ust := kz.kz007_ust + vat }
  else kz

/-- `kz[igKZ + "_netto"] += net; kz[igKZ + "_ust"] += vat` for the dynamic
IG rate key of the ig_erwerb branch. -/
def addIg (kz : Kz) (key : String) (net vat : ℚ) : Kz :=
  if key = "072" then
    { kz with kz072_netto := kz.kz072_netto + net, kz072_ust := kz.kz072_ust + vat }
  else if key = "073" then
    { kz with kz073_netto := kz.kz073_netto + net, kz073_ust := kz.kz073_ust + vat }
  else if key = "008" then
    { kz with kz008_netto := kz.kz008_netto + net, kz008_ust := kz.kz008_ust + vat }
  else if key = "088" then
    { kz with kz088_netto := kz.kz088_netto + net, kz088_ust := kz.kz088_ust + vat }
  else kz

/-- The treatment dispatch of the `type === "ausgang"` branch
(index.ts 244-267): exemption buckets or the rate-bucket `else` branch. -/
def ausgangDispatch (kz : Kz) (treatment : String) (rate net vat : ℚ) : Kz :=
  if treatment = "export" then
    { kz with kz011_netto := kz.kz011_netto + net }
  else if treatment = "ig_lieferung" then
    { kz with kz017_netto := kz.kz017_netto + net }
  else if treatment = "lohnveredelung" then
    { kz with kz012_netto := kz.kz012_netto + net }
  else if treatment = "dreiecksgeschaeft" then
    { kz with kz017_netto := kz.kz017_netto + net }
  else if treatment = "fahrzeug_ohne_uid" then
    { kz with kz018_netto := kz.kz018_netto + net }
  else if treatment = "grundstueck" then
    { kz with kz019_netto := kz.kz019_netto + net }
  else if treatment = "kleinunternehmer" then
    { kz with kz016_netto := kz.kz016_netto + net }
  else if treatment = "steuerbefreit_sonstige" then
    { kz with kz020_netto := kz.kz020_netto + net }
  else
    addRate kz ((RATE_MAP rate).getD "022") net vat

/-- JS `s.startsWith(pre)`, modelled over the character list of the
string. -/
def jsStartsWith (s pre : String) : Bool := pre.data.isPrefixOf s.data

/-- The KZ 021 accumulation of the ausgang branch (index.ts 269-273). -/
def add021 (kz : Kz) (treatment : String) (net : ℚ) : Kz :=
  if jsStartsWith treatment "reverse_charge" ∨ treatment = "ig_lieferung" then
    { kz with kz021_netto := kz.kz021_netto + net }
  else kz

/-- The `type === "ausgang"` branch of the invoice loop (index.ts 238-273):
KZ 000 accumulation, then the treatment dispatch, then the KZ 021
accumulation for reverse-charge / IG supplies. -/
def ausgangKz (kz : Kz) (treatment : String) (rate net vat : ℚ) : Kz :=
  add021
    (ausgangDispatch { kz with kz000_netto := kz.kz000_netto + net }
      treatment rate net vat)
    treatment net

/-- The `type === "eingang"` branch of the invoice loop (index.ts 278-339). -/
def eingangKz (kz : Kz) (treatment : String) (rate net vat : ℚ) : Kz :=
  if treatment = "ig_erwerb" then
    let igKZ := (IG_RATE_MAP rate).getD "072"
    let kz := addIg kz igKZ net vat
    let kz := { kz with kz070_netto := kz.kz070_netto + net }
    { kz with kz065_vorsteuer := kz.kz065_vorsteuer + vat }
  else if treatment = "reverse_charge_19_1" then
    { kz with kz057_ust := kz.kz057_ust + vat,
              kz066_vorsteuer := kz.kz066_vorsteuer + vat }
  else if treatment = "reverse_charge_19_1a" then
    { kz with kz048_ust := kz.kz048_ust + vat,
              kz082_vorsteuer := kz.kz082_vorsteuer + vat }
  else if treatment = "reverse_charge_19_1b" then
    { kz with kz044_ust := kz.kz044_ust + vat,
              kz087_vorsteuer := kz.kz087_vorsteuer + vat }
  else if treatment = "reverse_charge_19_1d" then
    { kz with kz032_ust := kz.kz032_ust + vat,
              kz089_vorsteuer := kz.kz089_vorsteuer + vat }
  else if treatment = "reverse_charge_19_1_3_4" then
    { kz with kz057_ust := kz.kz057_ust + vat,
              kz066_vorsteuer := kz.kz066_vorsteuer + vat }
  else if treatment = "einfuhr" then
    { kz with kz061_vorsteuer := kz.kz061_vorsteuer + vat }
  else if treatment = "eust_abgabenkonto" then
    { kz with kz083_vorsteuer := kz.kz083_vorsteuer + vat }
  else
    { kz with kz060_vorsteuer := kz.kz060_vorsteuer + vat }

/-- Warnings pushed by the invoice loop. -/
inductive Warning where
  | zeroAmount (ref : String)
  | vatDeviation (ref : String) (vat expected : ℚ)
deriving DecidableEq, Repr

/-- The VAT-consistency warning of index.ts 227-233: only for
`treatment === "normal" && rate > 0 && net > 0`, and only when the actual
VAT deviates from `round2(net * rate / 100)` by more than 2% of it. -/
def vatWarning (treatment : String) (rate net vat : ℚ) (ref : String) : List Warning :=
  if treatment = "normal" ∧ 0 < rate ∧ 0 < net then
    let expectedVat := round2 (net * rate / 100)
    if 2/100 * expectedVat < |expectedVat - vat| ∧ 0 < expectedVat then
      [Warning.vatDeviation ref vat expectedVat]
    else []
  else []

/-- The five treatments whose branches increment `rcCount`. -/
def isRcTreatment (t : String) : Prop :=
  t = "reverse_charge_19_1" ∨ t = "reverse_charge_19_1a" ∨
  t = "reverse_charge_19_1b" ∨ t = "reverse_charge_19_1d" ∨
  t = "reverse_charge_19_1_3_4"

instance (t : String) : Decidable (isRcTreatment t) := by
  unfold isRcTreatment; infer_instance

/-- Mutable loop state of the invoice loop (index.ts 200-205). -/
structure CalcState where
  kz : Kz := {}
  ausgangCount : ℕ := 0
  eingangCount : ℕ := 0
  igCount : ℕ := 0
  rcCount : ℕ := 0
  warnings : List Warning := []
  processedInvoiceIds : List String := []

/-- One iteration of the invoice loop (index.ts 210-340): field defaulting,
the zero-amount skip, the VAT-consistency warning, then the
ausgang/eingang dispatch. -/
def processInvoice (s : CalcState) (inv : Invoice) : CalcState :=
  let net := numOr inv.net_amount 0
  let vat := numOr inv.vat_amount 0
  let gross := numOr inv.gross_amount 0
  let rate := numOr inv.vat_rate 20
  let type := strOr inv.invoice_type "eingang"
  let treatment := strOr inv.tax_treatment "normal"
  let ref := strOr inv.invoice_number inv.id
  let processed := s.processedInvoiceIds ++ [inv.id]
  if net = 0 ∧ gross = 0 then
    { s with processedInvoiceIds := processed,
             warnings := s.warnings ++ [Warning.zeroAmount ref] }
  else
    let warnings := s.warnings ++ vatWarning treatment rate net vat ref
    if type = "ausgang" then
      { s with processedInvoiceIds := processed,
               warnings := warnings,
               ausgangCount := s.ausgangCount + 1,
               kz := ausgangKz s.kz treatment rate net vat }
    else if type = "eingang" then
      { s with processedInvoiceIds := processed,
               warnings := warnings,
               eingangCount := s.eingangCount + 1,
               igCount := s.igCount + (if treatment = "ig_erwerb" then 1 else 0),
               rcCount := s.rcCount + (if isRcTreatment treatment then 1 else 0),
               kz := eingangKz s.kz treatment rate net vat }
    else
      { s with processedInvoiceIds := processed, warnings := warnings }

/-- `summeUst` (index.ts 347-350). -/
def summeUst_of (kz : Kz) : ℚ :=
  round2 (kz.kz022_ust + kz.kz029_ust + kz.kz006_ust +
    kz.kz037_ust + kz.kz052_ust + kz.kz007_ust)

/-- `summeSteuerschuld` (index.ts 353-356). -/
def summeSteuerschuld_of (kz : Kz) : ℚ :=
  round2 (kz.kz056_ust + kz.kz057_ust + kz.kz048_ust +
    kz.kz044_ust + kz.kz032_ust)

/-- `summeIGUst` (index.ts 359-361). -/
def summeIGUst_of (kz : Kz) : ℚ :=
  round2 (kz.kz072_ust + kz.kz073_ust + kz.kz008_ust + kz.kz088_ust)

/-- `gesamtUst` (index.ts 364). -/
def gesamtUst_of (kz : Kz) : ℚ :=
  round2 (summeUst_of kz + summeSteuerschuld_of kz + summeIGUst_of kz)

/-- `kz090` (index.ts 367-373): the deductible-input-VAT total; note that
the `062` bucket enters as `-Math.abs(kz["062_vorsteuer"])`. -/
def kz090_of (kz : Kz) : ℚ :=
  round2 (kz.kz060_vorsteuer + kz.kz061_vorsteuer + kz.kz083_vorsteuer +
    kz.kz065_vorsteuer + kz.kz066_vorsteuer + kz.kz082_vorsteuer +
    kz.kz087_vorsteuer + kz.kz089_vorsteuer + kz.kz064_vorsteuer -
    |kz.kz062_vorsteuer| +
    kz.kz063_vorsteuer + kz.kz067_vorsteuer)

/-- `String(n).padStart(2, "0")`. -/
def pad2 (n : ℕ) : String := if n < 10 then "0" ++ toString n else toString n

/-- `dueMonth` (index.ts 380). -/
def dueMonth (month : ℕ) : ℕ :=
  if 12 < month + 2 then month + 2 - 12 else month + 2

/-- `dueYear` (index.ts 381). -/
def dueYear (year month : ℕ) : ℕ :=
  if 12 < month + 2 then year + 1 else year

/-- The final KZ map as stored in `uvaData`: every field rounded with
`round2` (index.ts 393-443). -/
def roundKz (kz : Kz) : Kz where
  kz000_netto := round2 kz.kz000_netto
  kz001_netto := round2 kz.kz001_netto
  kz021_netto := round2 kz.kz021_netto
  kz022_netto := round2 kz.kz022_netto
  kz022_ust := round2 kz.kz022_ust
  kz029_netto := round2 kz.kz029_netto
  kz029_ust := round2 kz.kz029_ust
  kz006_netto := round2 kz.kz006_netto
  kz006_ust := round2 kz.kz006_ust
  kz037_netto := round2 kz.kz037_netto
  kz037_ust := round2 kz.kz037_ust
  kz052_netto := round2 kz.kz052_netto
  kz052_ust := round2 kz.kz052_ust
  kz007_netto := round2 kz.kz007_netto
  kz007_ust := round2 kz.kz007_ust
  kz011_netto := round2 kz.kz011_netto
  kz012_netto := round2 kz.kz012_netto
  kz015_netto := round2 kz.kz015_netto
  kz017_netto := round2 kz.kz017_netto
  kz018_netto := round2 kz.kz018_netto
  kz019_netto := round2 kz.kz019_netto
  kz016_netto := round2 kz.kz016_netto
  kz020_netto := round2 kz.kz020_netto
  kz056_ust := round2 kz.kz056_ust
  kz057_ust := round2 kz.kz057_ust
  kz048_ust := round2 kz.kz048_ust
  kz044_ust := round2 kz.kz044_ust
  kz032_ust := round2 kz.kz032_ust
  kz070_netto := round2 kz.kz070_netto
  kz071_netto := round2 kz.kz071_netto
  kz072_netto := round2 kz.kz072_netto
  kz072_ust := round2 kz.kz072_ust
  kz073_netto := round2 kz.kz073_netto
  kz073_ust := round2 kz.kz073_ust
  kz008_netto := round2 kz.kz008_netto
  kz008_ust := round2 kz.kz008_ust
  kz088_netto := round2 kz.kz088_netto
  kz088_ust := round2 kz.kz088_ust
  kz076_netto := round2 kz.kz076_netto
  kz077_netto := round2 kz.kz077_netto
  kz060_vorsteuer := round2 kz.kz060_vorsteuer
  kz061_vorsteuer := round2 kz.kz061_vorsteuer
  kz083_vorsteuer := round2 kz.kz083_vorsteuer
  kz065_vorsteuer := round2 kz.kz065_vorsteuer
  kz066_vorsteuer := round2 kz.kz066_vorsteuer
  kz082_vorsteuer := round2 kz.kz082_vorsteuer
  kz087_vorsteuer := round2 kz.kz087_vorsteuer
  kz089_vorsteuer := round2 kz.kz089_vorsteuer
  kz064_vorsteuer := round2 kz.kz064_vorsteuer
  kz062_vorsteuer := round2 kz.kz062_vorsteuer
  kz063_vorsteuer := round2 kz.kz063_vorsteuer
  kz067_vorsteuer := round2 kz.kz067_vorsteuer

/-- The engine's output: the rounded KZ map of `uvaData` plus the summary
block of the success response (index.ts 387-449 and 510-528). -/
structure CalcResult where
  kz : Kz
  invoiceCount : ℕ
  ausgangCount : ℕ
  eingangCount : ℕ
  igCount : ℕ
  rcCount : ℕ
  summeUst : ℚ
  summeSteuerschuld : ℚ
  summeIGUst : ℚ
  gesamtUst : ℚ
  kz090 : ℚ
  kz095 : ℚ
  zahllast : ℚ
  warnings : List Warning
  processedInvoiceIds : List String
  due_year : ℕ
  due_month : ℕ
  due_date : String

/-- The calculation core of the `calculate-uva` edge function: the invoice
loop followed by the section totals, KZ 090/095, the due date, and the
rounded `uvaData` map. -/
def calculate (invoices : List Invoice) (year month : ℕ) : CalcResult :=
  let s := invoices.foldl processInvoice {}
  let gesamtUst := gesamtUst_of s.kz
  let kz090 := kz090_of s.kz
  let kz095 := round2 (gesamtUst - kz090)
  { kz := roundKz s.kz
    invoiceCount := invoices.length
    ausgangCount := s.ausgangCount
    eingangCount := s.eingangCount
    igCount := s.igCount
    rcCount := s.rcCount
    summeUst := summeUst_of s.kz
    summeSteuerschuld := summeSteuerschuld_of s.kz
    summeIGUst := summeIGUst_of s.kz
    gesamtUst := gesamtUst
    kz090 := kz090
    kz095 := kz095
    zahllast := kz095
    warnings := s.warnings
    processedInvoiceIds := s.processedInvoiceIds
    due_year := dueYear year month
    due_month := dueMonth month
    due_date := toString (dueYear year month) ++ "-" ++ pad2 (dueMonth month) ++ "-15" }

/-! ## The older revision of the calculate function

Embedded from the full-KZ revision kept in `src/unnamed/part_000`
(the `serve` handler commented "UVA-Berechnung nach Formular U 30 (2026)"):
its `kz` record, `rateToKZ` / `igRateToKZ` helpers, invoice loop, and
Zahllast computation.  It has no zero-amount skip and no warnings, writes
the raw (unrounded) accumulator values into `uvaData`, and computes
`zahllast = gesamtUst − summeVorsteuer + sonstigeBerichtigungen`. -/

/-- The KZ accumulator map of the older revision (part_000 lines 267-300):
same buckets minus the Kopfdaten keys, plus `090_betrag`. -/
structure KzOld where
  kz022_netto : ℚ := 0
  kz022_ust : ℚ := 0
  kz029_netto : ℚ := 0
  kz029_ust : ℚ := 0
  kz006_netto : ℚ := 0
  kz006_ust : ℚ := 0
  kz037_netto : ℚ := 0
  kz037_ust : ℚ := 0
  kz052_netto : ℚ := 0
  kz052_ust : ℚ := 0
  kz007_netto : ℚ := 0
  kz007_ust : ℚ := 0
  kz011_netto : ℚ := 0
  kz012_netto : ℚ := 0
  kz015_netto : ℚ := 0
  kz017_netto : ℚ := 0
  kz018_netto : ℚ := 0
  kz019_netto : ℚ := 0
  kz016_netto : ℚ := 0
  kz020_netto : ℚ := 0
  kz056_ust : ℚ := 0
  kz057_ust : ℚ := 0
  kz048_ust : ℚ := 0
  kz044_ust : ℚ := 0
  kz032_ust : ℚ := 0
  kz070_netto : ℚ := 0
  kz071_netto : ℚ := 0
  kz072_netto : ℚ := 0
  kz072_ust : ℚ := 0
  kz073_netto : ℚ := 0
  kz073_ust : ℚ := 0
  kz008_netto : ℚ := 0
  kz008_ust : ℚ := 0
  kz088_netto : ℚ := 0
  kz088_ust : ℚ := 0
  kz076_netto : ℚ := 0
  kz077_netto : ℚ := 0
  kz060_vorsteuer : ℚ := 0
  kz061_vorsteuer : ℚ := 0
  kz083_vorsteuer : ℚ := 0
  kz065_vorsteuer : ℚ := 0
  kz066_vorsteuer : ℚ := 0
  kz082_vorsteuer : ℚ := 0
  kz087_vorsteuer : ℚ := 0
  kz089_vorsteuer : ℚ := 0
  kz064_vorsteuer : ℚ := 0
  kz062_vorsteuer : ℚ := 0
  kz063_vorsteuer : ℚ := 0
  kz067_vorsteuer : ℚ := 0
  kz090_betrag : ℚ := 0

/-- `rateToKZ` of the older revision (part_000 lines 303-310): note the
`5 → "007"` entry and the `"022"` default. -/
def rateToKZ (rate : ℚ) : String :=
  if rate = 20 then "022"
  else if rate = 10 then "029"
  else if rate = 13 then "006"
  else if rate = 19 then "037"
  else if rate = 5 then "007"
  else "022"

/-- `igRateToKZ` of the older revision (part_000 lines 312-318). -/
def igRateToKZ (rate : ℚ) : String :=
  if rate = 20 then "072"
  else if rate = 10 then "073"
  else if rate = 13 then "008"
  else if rate = 19 then "088"
  else "072"

/-- Dynamic-key rate-bucket update of the older revision. -/
def oldAddRate (kz : KzOld) (key : String) (net vat : ℚ) : KzOld :=
  if key = "022" then
    { kz with kz022_netto := kz.kz022_netto + net, kz022_ust := kz.kz022_ust + vat }
  else if key = "029" then
    { kz with kz029_netto := kz.kz029_netto + net, kz029_ust := kz.kz029_ust + vat }
  else if key = "006" then
    { kz with kz006_netto := kz.kz006_netto + net, kz006_ust := kz.kz006_ust + vat }
  else if key = "037" then
    { kz with kz037_netto := kz.kz037_netto + net, kz037_ust := kz.kz037_ust + vat }
  else if key = "007" then
    { kz with kz007_netto := kz.kz007_netto + net, kz007_ust := kz.kz007_ust + vat }
  else kz

/-- Dynamic-key IG-bucket update of the older revision. -/
def oldAddIg (kz : KzOld) (key : String) (net vat : ℚ) : KzOld :=
  if key = "072" then
    { kz with kz072_netto := kz.kz072_netto + net, kz072_ust := kz.kz072_ust + vat }
  else if key = "073" then
    { kz with kz073_netto := kz.kz073_netto + net, kz073_ust := kz.kz073_ust + vat }
  else if key = "008" then
    { kz with kz008_netto := kz.kz008_netto + net, kz008_ust := kz.kz008_ust + vat }
  else if key = "088" then
    { kz with kz088_netto := kz.kz088_netto + net, kz088_ust := kz.kz088_ust + vat }
  else kz

/-- `type === "ausgang"` branch of the older revision (part_000 334-365). -/
def oldAusgangKz (kz : KzOld) (treatment : String) (rate net vat : ℚ) : KzOld :=
  if treatment = "export" then
    { kz with kz011_netto := kz.kz011_netto + net }
  else if treatment = "ig_lieferung" then
    { kz with kz015_netto := kz.kz015_netto + net }
  else if treatment = "lohnveredelung" then
    { kz with kz012_netto := kz.kz012_netto + net }
  else if treatment = "dreiecksgeschaeft" then
    { kz with kz017_netto := kz.kz017_netto + net }
  else if treatment = "fahrzeug_ohne_uid" then
    { kz with kz018_netto := kz.kz018_netto + net }
  else if treatment = "grundstueck" then
    { kz with kz019_netto := kz.kz019_netto + net }
  else if treatment = "kleinunternehmer" then
    { kz with kz016_netto := kz.kz016_netto + net }
  else if treatment = "steuerbefreit_sonstige" then
    { kz with kz020_netto := kz.kz020_netto + net }
  else
    oldAddRate kz (rateToKZ rate) net vat

/-- `type === "eingang"` branch of the older revision (part_000 366-413):
ig_erwerb credits `061`, einfuhr credits `065`, eust_abgabenkonto credits
`062`, and the reverse-charge pairs differ from the current revision. -/
def oldEingangKz (kz : KzOld) (treatment : String) (rate net vat : ℚ) : KzOld :=
  if treatment = "ig_erwerb" then
    let igKZ := igRateToKZ rate
    let kz := oldAddIg kz igKZ net vat
    let kz := { kz with kz070_netto := kz.kz070_netto + net }
    { kz with kz061_vorsteuer := kz.kz061_vorsteuer + vat }
  else if treatment = "reverse_charge_19_1" then
    { kz with kz057_ust := kz.kz057_ust + vat,
              kz083_vorsteuer := kz.kz083_vorsteuer + vat }
  else if treatment = "reverse_charge_19_1a" then
    { kz with kz044_ust := kz.kz044_ust + vat,
              kz087_vorsteuer := kz.kz087_vorsteuer + vat }
  else if treatment = "reverse_charge_19_1b" then
    { kz with kz032_ust := kz.kz032_ust + vat,
              kz089_vorsteuer := kz.kz089_vorsteuer + vat }
  else if treatment = "reverse_charge_19_1d" then
    { kz with kz032_ust := kz.kz032_ust + vat,
              kz089_vorsteuer := kz.kz089_vorsteuer + vat }
  else if treatment = "reverse_charge_19_1_3_4" then
    { kz with kz048_ust := kz.kz048_ust + vat,
              kz066_vorsteuer := kz.kz066_vorsteuer + vat }
  else if treatment = "einfuhr" then
    { kz with kz065_vorsteuer := kz.kz065_vorsteuer + vat }
  else if treatment = "eust_abgabenkonto" then
    { kz with kz062_vorsteuer := kz.kz062_vorsteuer + vat }
  else
    { kz with kz060_vorsteuer := kz.kz060_vorsteuer + vat }

/-- Loop state of the older revision (part_000 323-326). -/
structure OldState where
  kz : KzOld := {}
  ausgangCount : ℕ := 0
  eingangCount : ℕ := 0
  igCount : ℕ := 0

/-- One iteration of the older revision's invoice loop (part_000 327-414):
no zero-amount skip and no warnings. -/
def oldProcessInvoice (s : OldState) (inv : Invoice) : OldState :=
  let net := numOr inv.net_amount 0
  let vat := numOr inv.vat_amount 0
  let rate := numOr inv.vat_rate 20
  let type := strOr inv.invoice_type "eingang"
  let treatment := strOr inv.tax_treatment "normal"
  if type = "ausgang" then
    { s with ausgangCount := s.ausgangCount + 1,
             kz := oldAusgangKz s.kz treatment rate net vat }
  else if type = "eingang" then
    { s with eingangCount := s.eingangCount + 1,
             igCount := s.igCount + (if treatment = "ig_erwerb" then 1 else 0),
             kz := oldEingangKz s.kz treatment rate net vat }
  else s

/-- `summeVorsteuer` of the older revision (part_000 435-438): all twelve
credit buckets added, `062` included with positive sign. -/
def oldSummeVorsteuer_of (kz : KzOld) : ℚ :=
  kz.kz060_vorsteuer + kz.kz061_vorsteuer + kz.kz083_vorsteuer +
  kz.kz065_vorsteuer + kz.kz066_vorsteuer + kz.kz082_vorsteuer +
  kz.kz087_vorsteuer + kz.kz089_vorsteuer + kz.kz064_vorsteuer +
  kz.kz062_vorsteuer + kz.kz063_vorsteuer + kz.kz067_vorsteuer

/-- Output of the older revision: raw KZ map (its `uvaData` stores the
unrounded accumulators) and its summary figures. -/
structure OldResult where
  kz : KzOld
  invoiceCount : ℕ
  ausgangCount : ℕ
  eingangCount : ℕ
  igCount : ℕ
  summeUst : ℚ
  summeSteuerschuld : ℚ
  summeIGUst : ℚ
  gesamtUst : ℚ
  summeVorsteuer : ℚ
  zahllast : ℚ
  kz095 : ℚ
  due_year : ℕ
  due_month : ℕ
  due_date : String

/-- The calculation core of the older revision (part_000 327-452). -/
def oldCalculate (invoices : List Invoice) (year month : ℕ) : OldResult :=
  let s := invoices.foldl oldProcessInvoice {}
  let summeUst := s.kz.kz022_ust + s.kz.kz029_ust + s.kz.kz006_ust +
    s.kz.kz037_ust + s.kz.kz052_ust + s.kz.kz007_ust
  let summeSteuerschuld := s.kz.kz056_ust + s.kz.kz057_ust + s.kz.kz048_ust +
    s.kz.kz044_ust + s.kz.kz032_ust
  let summeIGUst := s.kz.kz072_ust + s.kz.kz073_ust + s.kz.kz008_ust + s.kz.kz088_ust
  let gesamtUst := summeUst + summeSteuerschuld + summeIGUst
  let summeVorsteuer := oldSummeVorsteuer_of s.kz
  let sonstigeBerichtigungen := s.kz.kz090_betrag
  let zahllast := gesamtUst - summeVorsteuer + sonstigeBerichtigungen
  { kz := s.kz
    invoiceCount := invoices.length
    ausgangCount := s.ausgangCount
    eingangCount := s.eingangCount
    igCount := s.igCount
    summeUst := summeUst
    summeSteuerschuld := summeSteuerschuld
    summeIGUst := summeIGUst
    gesamtUst := gesamtUst
    summeVorsteuer := summeVorsteuer
    zahllast := zahllast
    kz095 := zahllast
    due_year := dueYear year month
    due_month := dueMonth month
    due_date := toString (dueYear year month) ++ "-" ++ pad2 (dueMonth month) ++ "-15" }

/-! ## Derived and spec-side definitions -/

/-- The eight ausgang treatments with their own exemption branch; every
other treatment falls into the rate-bucket `else` branch. -/
def exemptTreatments : List String :=
  ["export", "ig_lieferung", "lohnveredelung", "dreiecksgeschaeft",
   "fahrzeug_ohne_uid", "grundstueck", "kleinunternehmer", "steuerbefreit_sonstige"]

/-- The `_netto` component of the IG rate bucket named by `key`. -/
def igNetto (kz : Kz) (key : String) : ℚ :=
  if key = "072" then kz.kz072_netto
  else if key = "073" then kz.kz073_netto
  else if key = "008" then kz.kz008_netto
  else if key = "088" then kz.kz088_netto
  else 0

/-- The `_ust` component of the IG rate bucket named by `key`. -/
def igUst (kz : Kz) (key : String) : ℚ :=
  if key = "072" then kz.kz072_ust
  else if key = "073" then kz.kz073_ust
  else if key = "008" then kz.kz008_ust
  else if key = "088" then kz.kz088_ust
  else 0

/-- `summeVorsteuer` as worded by the spec: the sum over all twelve
input-VAT-credit buckets (060, 061, 083, 065, 066, 082, 087, 089, 064,
062, 063, 067), every bucket -- including 062 -- added. -/
def summeVorsteuerSpec (kz : Kz) : ℚ :=
  kz.kz060_vorsteuer + kz.kz061_vorsteuer + kz.kz083_vorsteuer +
  kz.kz065_vorsteuer + kz.kz066_vorsteuer + kz.kz082_vorsteuer +
  kz.kz087_vorsteuer + kz.kz089_vorsteuer + kz.kz064_vorsteuer +
  kz.kz062_vorsteuer + kz.kz063_vorsteuer + kz.kz067_vorsteuer

/-- Sum of the six taxable-rate `_netto` buckets (022, 029, 006, 037,
052, 007). -/
def rateNettoSum (kz : Kz) : ℚ :=
  kz.kz022_netto + kz.kz029_netto + kz.kz006_netto +
  kz.kz037_netto + kz.kz052_netto + kz.kz007_netto

/-- Σ net over ausgang invoices with `tax_treatment` normal, exactly as the
claim words it (after the engine's field defaulting). -/
def sumNetAusgangNormal (l : List Invoice) : ℚ :=
  (l.map fun inv =>
    if strOr inv.invoice_type "eingang" = "ausgang" ∧
       strOr inv.tax_treatment "normal" = "normal"
    then numOr inv.net_amount 0 else 0).sum

/-- Σ net over ausgang invoices that reach the rate-bucket `else` branch:
every treatment outside the eight exemption treatments. -/
def sumNetAusgangTaxable (l : List Invoice) : ℚ :=
  (l.map fun inv =>
    if strOr inv.invoice_type "eingang" = "ausgang" ∧
       strOr inv.tax_treatment "normal" ∉ exemptTreatments
    then numOr inv.net_amount 0 else 0).sum

/-- Σ net over ausgang invoices that pass the zero-amount check. -/
def sumNetAusgangProcessed (l : List Invoice) : ℚ :=
  (l.map fun inv =>
    if strOr inv.invoice_type "eingang" = "ausgang" ∧
       ¬(numOr inv.net_amount 0 = 0 ∧ numOr inv.gross_amount 0 = 0)
    then numOr inv.net_amount 0 else 0).sum

/-- A whole number of cents: the 2-decimal fixed-point amounts of the data
model. -/
def isCents (q : ℚ) : Prop := ∃ n : ℤ, q * 100 = n

/-- All netto accumulators relevant to the ausgang sums are whole cents. -/
def nettoCents (kz : Kz) : Prop :=
  isCents kz.kz000_netto ∧ isCents kz.kz022_netto ∧ isCents kz.kz029_netto ∧
  isCents kz.kz006_netto ∧ isCents kz.kz037_netto ∧ isCents kz.kz052_netto ∧
  isCents kz.kz007_netto

/-! ## The response tail of the edge function (for the audit-log claim)

index.ts lines 451-540: after the calculation, the handler upserts the
`uva_periods` row (a failure there throws and is turned into a 500
response by the outer catch), then attempts the `audit_log` insert inside
its own `try`/`catch` whose handler only logs, and finally returns the
success response built from the stored row.  Awaited database calls are
modelled as `Except` values. -/

inductive HttpResponse where
  | success (uvaResult : CalcResult)
  | serverError

/-- The post-calculation tail: upsert, audit-log attempt (its failure
swallowed by the `catch`), success response. -/
def uvaUpsertThenRespond (upsert : Except String CalcResult)
    (auditInsert : CalcResult → Except String Unit) : Except String HttpResponse :=
  match upsert with
  | Except.error e => Except.error e
  | Except.ok uvaResult =>
    match auditInsert uvaResult with
    | Except.ok _ => Except.ok (HttpResponse.success uvaResult)
    | Except.error _ => Except.ok (HttpResponse.success uvaResult)

/-- The outer catch of the handler: any uncaught throw becomes the 500
response. -/
def serveTail (upsert : Except String CalcResult)
    (auditInsert : CalcResult → Except String Unit) : HttpResponse :=
  match uvaUpsertThenRespond upsert auditInsert with
  | Except.ok resp => resp
  | Except.error _ => HttpResponse.serverError

/-! ## Concrete invoices used in counterexamples and witnesses -/

/-- An eingang ig_erwerb invoice with zero net and gross but nonzero VAT:
it is caught by the zero-amount check and skipped. -/
def igZeroInvoice : Invoice :=
  { id := "ig-zero"
    net_amount := some 0
    vat_amount := some 5
    gross_amount := some 0
    vat_rate := some 20
    invoice_type := some "eingang"
    tax_treatment := some "ig_erwerb" }

/-- An ausgang invoice with a reverse-charge treatment: it is not
`normal`, yet the ausgang dispatch routes it to the 20% rate bucket. -/
def ausgangRcInvoice : Invoice :=
  { id := "ausgang-rc"
    net_amount := some 100
    vat_amount := some 0
    gross_amount := some 100
    vat_rate := some 20
    invoice_type := some "ausgang"
    tax_treatment := some "reverse_charge_19_1" }

/-- An ausgang invoice whose net and gross are both zero. -/
def zeroAusgangInvoice : Invoice :=
  { id := "zero-out"
    net_amount := some 0
    vat_amount := some 0
    gross_amount := some 0
    vat_rate := some 20
    invoice_type := some "ausgang"
    tax_treatment := some "normal" }

/-- An eingang reverse-charge invoice whose VAT deviates far from
`net * rate / 100` (expected 20, actual 7). -/
def rcDeviatingInvoice : Invoice :=
  { id := "rc-dev"
    net_amount := some 100
    vat_amount := some 7
    gross_amount := some 107
    vat_rate := some 20
    invoice_type := some "eingang"
    tax_treatment := some "reverse_charge_19_1" }

/-- An eingang einfuhr invoice with VAT 10. -/
def einfuhrInvoice : Invoice :=
  { id := "einfuhr"
    net_amount := some 100
    vat_amount := some 10
    gross_amount := some 110
    vat_rate := some 10
    invoice_type := some "eingang"
    tax_treatment := some "einfuhr" }

/-- An eingang eust_abgabenkonto invoice with VAT 10. -/
def eustInvoice : Invoice :=
  { id := "eust"
    net_amount := some 100
    vat_amount := some 10
    gross_amount := some 110
    vat_rate := some 10
    invoice_type := some "eingang"
    tax_treatment := some "eust_abgabenkonto" }

/-- An eingang ig_erwerb invoice with net 100, VAT 20 at 20%. -/
def igErwerbInvoice : Invoice :=
  { id := "ig"
    net_amount := some 100
    vat_amount := some 20
    gross_amount := some 120
    vat_rate := some 20
    invoice_type := some "eingang"
    tax_treatment := some "ig_erwerb" }

/-- An ordinary ausgang invoice: net 100 at 20%, VAT 20. -/
def normalAusgangInvoice : Invoice :=
  { id := "out-normal"
    net_amount := some 100
    vat_amount := some 20
    gross_amount := some 120
    vat_rate := some 20
    invoice_type := some "ausgang"
    tax_treatment := some "normal" }

/-- An ausgang normal invoice with the untabulated 5% rate and a
consistent VAT amount. -/
def rate5Invoice : Invoice :=
  { id := "rate5"
    net_amount := some 100
    vat_amount := some 5
    gross_amount := some 105
    vat_rate := some 5
    invoice_type := some "ausgang"
    tax_treatment := some "normal" }

/-- An eingang ig_erwerb invoice at the 10% rate (witness input). -/
def igErwerb10Invoice : Invoice :=
  { id := "ig10"
    net_amount := some 200
    vat_amount := some 20
    gross_amount := some 220
    vat_rate := some 10
    invoice_type := some "eingang"
    tax_treatment := some "ig_erwerb" }

/-! ## Helper lemmas -/

lemma round2_of_isCents {q : ℚ} (h : isCents q) : round2 q = q := by
  obtain ⟨n, hn⟩ := h
  have hq : q = (n : ℚ) / 100 := by
    field_simp
    linarith [hn]
  have hfl : (⌊(n : ℚ) + 1/2⌋ : ℤ) = n := by
    rw [Int.floor_eq_iff]
    exact ⟨by linarith, by linarith⟩
  rw [round2, hn, hfl, hq]

lemma isCents_zero : isCents 0 := ⟨0, by norm_num⟩

lemma isCents_add {a b : ℚ} (ha : isCents a) (hb : isCents b) : isCents (a + b) := by
  obtain ⟨m, hm⟩ := ha
  obtain ⟨n, hn⟩ := hb
  exact ⟨m + n, by push_cast; linarith⟩

/-- `addIg` leaves every field outside the four IG rate buckets unchanged
(stated for the fields the claims track). -/
lemma addIg_frame (kz : Kz) (key : String) (n v : ℚ) :
    (addIg kz key n v).kz000_netto = kz.kz000_netto ∧
    (addIg kz key n v).kz022_netto = kz.kz022_netto ∧
    (addIg kz key n v).kz029_netto = kz.kz029_netto ∧
    (addIg kz key n v).kz006_netto = kz.kz006_netto ∧
    (addIg kz key n v).kz037_netto = kz.kz037_netto ∧
    (addIg kz key n v).kz052_netto = kz.kz052_netto ∧
    (addIg kz key n v).kz007_netto = kz.kz007_netto ∧
    (addIg kz key n v).kz056_ust = kz.kz056_ust ∧
    (addIg kz key n v).kz057_ust = kz.kz057_ust ∧
    (addIg kz key n v).kz066_vorsteuer = kz.kz066_vorsteuer ∧
    (addIg kz key n v).kz048_ust = kz.kz048_ust ∧
    (addIg kz key n v).kz082_vorsteuer = kz.kz082_vorsteuer ∧
    (addIg kz key n v).kz044_ust = kz.kz044_ust ∧
    (addIg kz key n v).kz087_vorsteuer = kz.kz087_vorsteuer ∧
    (addIg kz key n v).kz032_ust = kz.kz032_ust ∧
    (addIg kz key n v).kz089_vorsteuer = kz.kz089_vorsteuer ∧
    (addIg kz key n v).kz062_vorsteuer = kz.kz062_vorsteuer := by
  unfold addIg
  split_ifs <;>
    exact ⟨rfl, rfl, rfl, rfl, rfl, rfl, rfl, rfl, rfl, rfl, rfl, rfl, rfl,
           rfl, rfl, rfl, rfl⟩

/-- `addRate` never touches the reverse-charge pairs, KZ 056, KZ 000,
KZ 021, or the credit bucket 062. -/
lemma addRate_frame (kz : Kz) (key : String) (n v : ℚ) :
    (addRate kz key n v).kz000_netto = kz.kz000_netto ∧
    (addRate kz key n v).kz021_netto = kz.kz021_netto ∧
    (addRate kz key n v).kz056_ust = kz.kz056_ust ∧
    (addRate kz key n v).kz057_ust = kz.kz057_ust ∧
    (addRate kz key n v).kz066_vorsteuer = kz.kz066_vorsteuer ∧
    (addRate kz key n v).kz048_ust = kz.kz048_ust ∧
    (addRate kz key n v).kz082_vorsteuer = kz.kz082_vorsteuer ∧
    (addRate kz key n v).kz044_ust = kz.kz044_ust ∧
    (addRate kz key n v).kz087_vorsteuer = kz.kz087_vorsteuer ∧
    (addRate kz key n v).kz032_ust = kz.kz032_ust ∧
    (addRate kz key n v).kz089_vorsteuer = kz.kz089_vorsteuer ∧
    (addRate kz key n v).kz062_vorsteuer = kz.kz062_vorsteuer := by
  unfold addRate
  split_ifs <;>
    exact ⟨rfl, rfl, rfl, rfl, rfl, rfl, rfl, rfl, rfl, rfl, rfl, rfl⟩

/-- Each taxable-rate `_netto` bucket either stays or receives the net
amount under `addRate`. -/
lemma addRate_netto_cases (kz : Kz) (key : String) (n v : ℚ) :
    ((addRate kz key n v).kz022_netto = kz.kz022_netto ∨
     (addRate kz key n v).kz022_netto = kz.kz022_netto + n) ∧
    ((addRate kz key n v).kz029_netto = kz.kz029_netto ∨
     (addRate kz key n v).kz029_netto = kz.kz029_netto + n) ∧
    ((addRate kz key n v).kz006_netto = kz.kz006_netto ∨
     (addRate kz key n v).kz006_netto = kz.kz006_netto + n) ∧
    ((addRate kz key n v).kz037_netto = kz.kz037_netto ∨
     (addRate kz key n v).kz037_netto = kz.kz037_netto + n) ∧
    ((addRate kz key n v).kz052_netto = kz.kz052_netto ∨
     (addRate kz key n v).kz052_netto = kz.kz052_netto + n) ∧
    ((addRate kz key n v).kz007_netto = kz.kz007_netto ∨
     (addRate kz key n v).kz007_netto = kz.kz007_netto + n) := by
  unfold addRate
  split_ifs <;>
    refine ⟨?_, ?_, ?_, ?_, ?_, ?_⟩ <;>
    first
      | exact Or.inl rfl
      | exact Or.inr rfl

/-- `ausgangDispatch` never touches the reverse-charge pairs, KZ 056,
KZ 000, KZ 021, or the credit bucket 062. -/
lemma ausgangDispatch_frame (kz : Kz) (t : String) (r n v : ℚ) :
    (ausgangDispatch kz t r n v).kz000_netto = kz.kz000_netto ∧
    (ausgangDispatch kz t r n v).kz021_netto = kz.kz021_netto ∧
    (ausgangDispatch kz t r n v).kz056_ust = kz.kz056_ust ∧
    (ausgangDispatch kz t r n v).kz057_ust = kz.kz057_ust ∧
    (ausgangDispatch kz t r n v).kz066_vorsteuer = kz.kz066_vorsteuer ∧
    (ausgangDispatch kz t r n v).kz048_ust = kz.kz048_ust ∧
    (ausgangDispatch kz t r n v).kz082_vorsteuer = kz.kz082_vorsteuer ∧
    (ausgangDispatch kz t r n v).kz044_ust = kz.kz044_ust ∧
    (ausgangDispatch kz t r n v).kz087_vorsteuer = kz.kz087_vorsteuer ∧
    (ausgangDispatch kz t r n v).kz032_ust = kz.kz032_ust ∧
    (ausgangDispatch kz t r n v).kz089_vorsteuer = kz.kz089_vorsteuer ∧
    (ausgangDispatch kz t r n v).kz062_vorsteuer = kz.kz062_vorsteuer := by
  unfold ausgangDispatch
  split_ifs <;>
    first
      | exact ⟨rfl, rfl, rfl, rfl, rfl, rfl, rfl, rfl, rfl, rfl, rfl, rfl⟩
      | exact addRate_frame kz ((RATE_MAP r).getD "022") n v

/-- Each taxable-rate `_netto` bucket either stays or receives the net
amount under `ausgangDispatch`. -/
lemma ausgangDispatch_netto_cases (kz : Kz) (t : String) (r n v : ℚ) :
    ((ausgangDispatch kz t r n v).kz022_netto = kz.kz022_netto ∨
     (ausgangDispatch kz t r n v).kz022_netto = kz.kz022_netto + n) ∧
    ((ausgangDispatch kz t r n v).kz029_netto = kz.kz029_netto ∨
     (ausgangDispatch kz t r n v).kz029_netto = kz.kz029_netto + n) ∧
    ((ausgangDispatch kz t r n v).kz006_netto = kz.kz006_netto ∨
     (ausgangDispatch kz t r n v).kz006_netto = kz.kz006_netto + n) ∧
    ((ausgangDispatch kz t r n v).kz037_netto = kz.kz037_netto ∨
     (ausgangDispatch kz t r n v).kz037_netto = kz.kz037_netto + n) ∧
    ((ausgangDispatch kz t r n v).kz052_netto = kz.kz052_netto ∨
     (ausgangDispatch kz t r n v).kz052_netto = kz.kz052_netto + n) ∧
    ((ausgangDispatch kz t r n v).kz007_netto = kz.kz007_netto ∨
     (ausgangDispatch kz t r n v).kz007_netto = kz.kz007_netto + n) := by
  unfold ausgangDispatch
  split_ifs with h1 h2 h3 h4 h5 h6 h7 h8
  · exact ⟨Or.inl rfl, Or.inl rfl, Or.inl rfl, Or.inl rfl, Or.inl rfl, Or.inl rfl⟩
  · exact ⟨Or.inl rfl, Or.inl rfl, Or.inl rfl, Or.inl rfl, Or.inl rfl, Or.inl rfl⟩
  · exact ⟨Or.inl rfl, Or.inl rfl, Or.inl rfl, Or.inl rfl, Or.inl rfl, Or.inl rfl⟩
  · exact ⟨Or.inl rfl, Or.inl rfl, Or.inl rfl, Or.inl rfl, Or.inl rfl, Or.inl rfl⟩
  · exact ⟨Or.inl rfl, Or.inl rfl, Or.inl rfl, Or.inl rfl, Or.inl rfl, Or.inl rfl⟩
  · exact ⟨Or.inl rfl, Or.inl rfl, Or.inl rfl, Or.inl rfl, Or.inl rfl, Or.inl rfl⟩
  · exact ⟨Or.inl rfl, Or.inl rfl, Or.inl rfl, Or.inl rfl, Or.inl rfl, Or.inl rfl⟩
  · exact ⟨Or.inl rfl, Or.inl rfl, Or.inl rfl, Or.inl rfl, Or.inl rfl, Or.inl rfl⟩
  · exact addRate_netto_cases kz ((RATE_MAP r).getD "022") n v

/-- `add021` only touches KZ 021. -/
lemma add021_frame (kz : Kz) (t : String) (n : ℚ) :
    (add021 kz t n).kz000_netto = kz.kz000_netto ∧
    (add021 kz t n).kz022_netto = kz.kz022_netto ∧
    (add021 kz t n).kz029_netto = kz.kz029_netto ∧
    (add021 kz t n).kz006_netto = kz.kz006_netto ∧
    (add021 kz t n).kz037_netto = kz.kz037_netto ∧
    (add021 kz t n).kz052_netto = kz.kz052_netto ∧
    (add021 kz t n).kz007_netto = kz.kz007_netto ∧
    (add021 kz t n).kz056_ust = kz.kz056_ust ∧
    (add021 kz t n).kz057_ust = kz.kz057_ust ∧
    (add021 kz t n).kz066_vorsteuer = kz.kz066_vorsteuer ∧
    (add021 kz t n).kz048_ust = kz.kz048_ust ∧
    (add021 kz t n).kz082_vorsteuer = kz.kz082_vorsteuer ∧
    (add021 kz t n).kz044_ust = kz.kz044_ust ∧
    (add021 kz t n).kz087_vorsteuer = kz.kz087_vorsteuer ∧
    (add021 kz t n).kz032_ust = kz.kz032_ust ∧
    (add021 kz t n).kz089_vorsteuer = kz.kz089_vorsteuer ∧
    (add021 kz t n).kz062_vorsteuer = kz.kz062_vorsteuer := by
  unfold add021
  split_ifs <;>
    exact ⟨rfl, rfl, rfl, rfl, rfl, rfl, rfl, rfl, rfl, rfl, rfl, rfl, rfl,
           rfl, rfl, rfl, rfl⟩

/-- `ausgangKz` never touches the reverse-charge pairs, KZ 056, or the
credit bucket 062. -/
lemma ausgangKz_frame (kz : Kz) (t : String) (r n v : ℚ) :
    (ausgangKz kz t r n v).kz056_ust = kz.kz056_ust ∧
    (ausgangKz kz t r n v).kz057_ust = kz.kz057_ust ∧
    (ausgangKz kz t r n v).kz066_vorsteuer = kz.kz066_vorsteuer ∧
    (ausgangKz kz t r n v).kz048_ust = kz.kz048_ust ∧
    (ausgangKz kz t r n v).kz082_vorsteuer = kz.kz082_vorsteuer ∧
    (ausgangKz kz t r n v).kz044_ust = kz.kz044_ust ∧
    (ausgangKz kz t r n v).kz087_vorsteuer = kz.kz087_vorsteuer ∧
    (ausgangKz kz t r n v).kz032_ust = kz.kz032_ust ∧
    (ausgangKz kz t r n v).kz089_vorsteuer = kz.kz089_vorsteuer ∧
    (ausgangKz kz t r n v).kz062_vorsteuer = kz.kz062_vorsteuer := by
  have hd := ausgangDispatch_frame { kz with kz000_netto := kz.kz000_netto + n } t r n v
  have ha := add021_frame (ausgangDispatch { kz with kz000_netto := kz.kz000_netto + n } t r n v) t n
  unfold ausgangKz
  refine ⟨?_, ?_, ?_, ?_, ?_, ?_, ?_, ?_, ?_, ?_⟩ <;>
    simp_all

/-- `ausgangKz` adds the net amount to KZ 000 in every branch. -/
lemma ausgangKz_kz000 (kz : Kz) (t : String) (r n v : ℚ) :
    (ausgangKz kz t r n v).kz000_netto = kz.kz000_netto + n := by
  have hd := ausgangDispatch_frame { kz with kz000_netto := kz.kz000_netto + n } t r n v
  have ha := add021_frame (ausgangDispatch { kz with kz000_netto := kz.kz000_netto + n } t r n v) t n
  unfold ausgangKz
  simp_all

/-- Each taxable-rate `_netto` bucket either stays or receives the net
amount under `ausgangKz`. -/
lemma ausgangKz_netto_cases (kz : Kz) (t : String) (r n v : ℚ) :
    ((ausgangKz kz t r n v).kz022_netto = kz.kz022_netto ∨
     (ausgangKz kz t r n v).kz022_netto = kz.kz022_netto + n) ∧
    ((ausgangKz kz t r n v).kz029_netto = kz.kz029_netto ∨
     (ausgangKz kz t r n v).kz029_netto = kz.kz029_netto + n) ∧
    ((ausgangKz kz t r n v).kz037_netto = kz.kz037_netto ∨
     (ausgangKz kz t r n v).kz037_netto = kz.kz037_netto + n) ∧
    ((ausgangKz kz t r n v).kz006_netto = kz.kz006_netto ∨
     (ausgangKz kz t r n v).kz006_netto = kz.kz006_netto + n) ∧
    ((ausgangKz kz t r n v).kz052_netto = kz.kz052_netto ∨
     (ausgangKz kz t r n v).kz052_netto = kz.kz052_netto + n) ∧
    ((ausgangKz kz t r n v).kz007_netto = kz.kz007_netto ∨
     (ausgangKz kz t r n v).kz007_netto = kz.kz007_netto + n) := by
  have hd := ausgangDispatch_netto_cases { kz with kz000_netto := kz.kz000_netto + n } t r n v
  have ha := add021_frame (ausgangDispatch { kz with kz000_netto := kz.kz000_netto + n } t r n v) t n
  unfold ausgangKz
  obtain ⟨d1, d2, d3, d4, d5, d6⟩ := hd
  refine ⟨?_, ?_, ?_, ?_, ?_, ?_⟩ <;>
    simp_all

set_option maxHeartbeats 1000000 in
/-- `eingangKz` never touches KZ 000 or the six taxable-rate `_netto`
buckets, nor 056 or 062. -/
lemma eingangKz_frame (kz : Kz) (t : String) (r n v : ℚ) :
    (eingangKz kz t r n v).kz000_netto = kz.kz000_netto ∧
    (eingangKz kz t r n v).kz022_netto = kz.kz022_netto ∧
    (eingangKz kz t r n v).kz029_netto = kz.kz029_netto ∧
    (eingangKz kz t r n v).kz006_netto = kz.kz006_netto ∧
    (eingangKz kz t r n v).kz037_netto = kz.kz037_netto ∧
    (eingangKz kz t r n v).kz052_netto = kz.kz052_netto ∧
    (eingangKz kz t r n v).kz007_netto = kz.kz007_netto ∧
    (eingangKz kz t r n v).kz056_ust = kz.kz056_ust ∧
    (eingangKz kz t r n v).kz062_vorsteuer = kz.kz062_vorsteuer := by
  unfold eingangKz
  split_ifs <;>
    simp [addIg_frame kz ((IG_RATE_MAP r).getD "072") n v]

set_option maxHeartbeats 1000000 in
/-- `eingangKz` moves each reverse-charge output bucket and its paired
credit bucket in lockstep: all four differences are preserved. -/
lemma eingangKz_pairs (kz : Kz) (t : String) (r n v : ℚ) :
    (eingangKz kz t r n v).kz057_ust - (eingangKz kz t r n v).kz066_vorsteuer
      = kz.kz057_ust - kz.kz066_vorsteuer ∧
    (eingangKz kz t r n v).kz048_ust - (eingangKz kz t r n v).kz082_vorsteuer
      = kz.kz048_ust - kz.kz082_vorsteuer ∧
    (eingangKz kz t r n v).kz044_ust - (eingangKz kz t r n v).kz087_vorsteuer
      = kz.kz044_ust - kz.kz087_vorsteuer ∧
    (eingangKz kz t r n v).kz032_ust - (eingangKz kz t r n v).kz089_vorsteuer
      = kz.kz032_ust - kz.kz089_vorsteuer := by
  unfold eingangKz
  split_ifs <;>
    simp [addIg_frame kz ((IG_RATE_MAP r).getD "072") n v]

/-! ## rateNettoSum lemmas -/

lemma addRate_rateNettoSum (kz : Kz) (r n v : ℚ) :
    rateNettoSum (addRate kz ((RATE_MAP r).getD "022") n v) = rateNettoSum kz + n := by
  unfold RATE_MAP
  split_ifs <;> simp [addRate, rateNettoSum] <;> ring

lemma ausgangDispatch_rateNettoSum (kz : Kz) (t : String) (r n v : ℚ) :
    rateNettoSum (ausgangDispatch kz t r n v) =
      rateNettoSum kz + (if t ∈ exemptTreatments then 0 else n) := by
  by_cases hm : t ∈ exemptTreatments
  · rw [if_pos hm]
    simp only [exemptTreatments, List.mem_cons, List.not_mem_nil, or_false] at hm
    rcases hm with h | h | h | h | h | h | h | h <;> subst h <;>
      simp [ausgangDispatch, rateNettoSum]
  · rw [if_neg hm]
    simp only [exemptTreatments, List.mem_cons, List.not_mem_nil, or_false,
      not_or] at hm
    obtain ⟨n1, n2, n3, n4, n5, n6, n7, n8⟩ := hm
    simp [ausgangDispatch, n1, n2, n3, n4, n5, n6, n7, n8, addRate_rateNettoSum]

lemma add021_rateNettoSum (kz : Kz) (t : String) (n : ℚ) :
    rateNettoSum (add021 kz t n) = rateNettoSum kz := by
  obtain ⟨-, a22, a29, a06, a37, a52, a07, -⟩ := add021_frame kz t n
  simp [rateNettoSum, a22, a29, a06, a37, a52, a07]

lemma ausgangKz_rateNettoSum (kz : Kz) (t : String) (r n v : ℚ) :
    rateNettoSum (ausgangKz kz t r n v) =
      rateNettoSum kz + (if t ∈ exemptTreatments then 0 else n) := by
  unfold ausgangKz
  rw [add021_rateNettoSum, ausgangDispatch_rateNettoSum]
  simp [rateNettoSum]

lemma eingangKz_rateNettoSum (kz : Kz) (t : String) (r n v : ℚ) :
    rateNettoSum (eingangKz kz t r n v) = rateNettoSum kz := by
  obtain ⟨-, e22, e29, e06, e37, e52, e07, -⟩ := eingangKz_frame kz t r n v
  simp [rateNettoSum, e22, e29, e06, e37, e52, e07]

/-! ## processInvoice-level characterizations -/

lemma processInvoice_kz_cases (s : CalcState) (inv : Invoice) :
    (processInvoice s inv).kz = s.kz ∨
    (processInvoice s inv).kz = ausgangKz s.kz (strOr inv.tax_treatment "normal")
      (numOr inv.vat_rate 20) (numOr inv.net_amount 0) (numOr inv.vat_amount 0) ∨
    (processInvoice s inv).kz = eingangKz s.kz (strOr inv.tax_treatment "normal")
      (numOr inv.vat_rate 20) (numOr inv.net_amount 0) (numOr inv.vat_amount 0) := by
  unfold processInvoice
  dsimp only
  by_cases hz : numOr inv.net_amount 0 = 0 ∧ numOr inv.gross_amount 0 = 0
  · left
    simp [hz]
  · by_cases ht : strOr inv.invoice_type "eingang" = "ausgang"
    · right; left
      simp [hz, ht]
    · by_cases he : strOr inv.invoice_type "eingang" = "eingang"
      · right; right
        simp [hz, ht, he]
      · left
        simp [hz, ht, he]

lemma processInvoice_kz062 (s : CalcState) (inv : Invoice) :
    (processInvoice s inv).kz.kz062_vorsteuer = s.kz.kz062_vorsteuer := by
  rcases processInvoice_kz_cases s inv with h | h | h <;> rw [h]
  · exact (ausgangKz_frame s.kz _ _ _ _).2.2.2.2.2.2.2.2.2
  · exact (eingangKz_frame s.kz _ _ _ _).2.2.2.2.2.2.2.2

lemma processInvoice_pairs (s : CalcState) (inv : Invoice) :
    (processInvoice s inv).kz.kz057_ust - (processInvoice s inv).kz.kz066_vorsteuer
      = s.kz.kz057_ust - s.kz.kz066_vorsteuer ∧
    (processInvoice s inv).kz.kz048_ust - (processInvoice s inv).kz.kz082_vorsteuer
      = s.kz.kz048_ust - s.kz.kz082_vorsteuer ∧
    (processInvoice s inv).kz.kz044_ust - (processInvoice s inv).kz.kz087_vorsteuer
      = s.kz.kz044_ust - s.kz.kz087_vorsteuer ∧
    (processInvoice s inv).kz.kz032_ust - (processInvoice s inv).kz.kz089_vorsteuer
      = s.kz.kz032_ust - s.kz.kz089_vorsteuer := by
  rcases processInvoice_kz_cases s inv with h | h | h <;> rw [h]
  · exact ⟨rfl, rfl, rfl, rfl⟩
  · obtain ⟨-, a57, a66, a48, a82, a44, a87, a32, a89, -⟩ := ausgangKz_frame s.kz
      (strOr inv.tax_treatment "normal") (numOr inv.vat_rate 20)
      (numOr inv.net_amount 0) (numOr inv.vat_amount 0)
    rw [a57, a66, a48, a82, a44, a87, a32, a89]
    exact ⟨rfl, rfl, rfl, rfl⟩
  · exact eingangKz_pairs s.kz _ _ _ _

lemma processInvoice_kz000 (s : CalcState) (inv : Invoice) :
    (processInvoice s inv).kz.kz000_netto = s.kz.kz000_netto +
      (if strOr inv.invoice_type "eingang" = "ausgang" ∧
          ¬(numOr inv.net_amount 0 = 0 ∧ numOr inv.gross_amount 0 = 0)
       then numOr inv.net_amount 0 else 0) := by
  unfold processInvoice
  dsimp only
  by_cases hz : numOr inv.net_amount 0 = 0 ∧ numOr inv.gross_amount 0 = 0
  · simp [hz]
  · by_cases ht : strOr inv.invoice_type "eingang" = "ausgang"
    · simp [hz, ht, ausgangKz_kz000]
    · by_cases he : strOr inv.invoice_type "eingang" = "eingang"
      · simp [hz, ht, he, (eingangKz_frame s.kz (strOr inv.tax_treatment "normal")
          (numOr inv.vat_rate 20) (numOr inv.net_amount 0) (numOr inv.vat_amount 0)).1]
      · simp [hz, ht, he]

lemma processInvoice_rateNettoSum (s : CalcState) (inv : Invoice) :
    rateNettoSum (processInvoice s inv).kz = rateNettoSum s.kz +
      (if strOr inv.invoice_type "eingang" = "ausgang" ∧
          strOr inv.tax_treatment "normal" ∉ exemptTreatments ∧
          ¬(numOr inv.net_amount 0 = 0 ∧ numOr inv.gross_amount 0 = 0)
       then numOr inv.net_amount 0 else 0) := by
  unfold processInvoice
  dsimp only
  by_cases hz : numOr inv.net_amount 0 = 0 ∧ numOr inv.gross_amount 0 = 0
  · simp [hz]
  · by_cases ht : strOr inv.invoice_type "eingang" = "ausgang"
    · by_cases hm : strOr inv.tax_treatment "normal" ∈ exemptTreatments
      · simp [hz, ht, hm, ausgangKz_rateNettoSum]
      · simp [hz, ht, hm, ausgangKz_rateNettoSum]
    · by_cases he : strOr inv.invoice_type "eingang" = "eingang"
      · simp [hz, ht, he, eingangKz_rateNettoSum]
      · simp [hz, ht, he]

lemma processInvoice_ids (s : CalcState) (inv : Invoice) :
    (processInvoice s inv).processedInvoiceIds = s.processedInvoiceIds ++ [inv.id] := by
  unfold processInvoice
  dsimp only
  split_ifs <;> rfl

lemma processInvoice_warnings (s : CalcState) (inv : Invoice) :
    (processInvoice s inv).warnings = s.warnings ++
      (if numOr inv.net_amount 0 = 0 ∧ numOr inv.gross_amount 0 = 0 then
        [Warning.zeroAmount (strOr inv.invoice_number inv.id)]
      else
        vatWarning (strOr inv.tax_treatment "normal") (numOr inv.vat_rate 20)
          (numOr inv.net_amount 0) (numOr inv.vat_amount 0)
          (strOr inv.invoice_number inv.id)) := by
  unfold processInvoice
  dsimp only
  split_ifs <;> simp

lemma processInvoice_nettoCents (s : CalcState) (inv : Invoice)
    (hc : isCents (numOr inv.net_amount 0)) (h : nettoCents s.kz) :
    nettoCents (processInvoice s inv).kz := by
  obtain ⟨h0, h22, h29, h06, h37, h52, h07⟩ := h
  rcases processInvoice_kz_cases s inv with hk | hk | hk <;> rw [hk]
  · exact ⟨h0, h22, h29, h06, h37, h52, h07⟩
  · obtain ⟨c22 | c22, c29 | c29, c37 | c37, c06 | c06, c52 | c52, c07 | c07⟩ :=
      ausgangKz_netto_cases s.kz (strOr inv.tax_treatment "normal")
        (numOr inv.vat_rate 20) (numOr inv.net_amount 0) (numOr inv.vat_amount 0) <;>
      refine ⟨by rw [ausgangKz_kz000]; exact isCents_add h0 hc, ?_, ?_, ?_, ?_, ?_, ?_⟩ <;>
      first
        | (rw [c22]; first | exact h22 | exact isCents_add h22 hc)
        | (rw [c29]; first | exact h29 | exact isCents_add h29 hc)
        | (rw [c06]; first | exact h06 | exact isCents_add h06 hc)
        | (rw [c37]; first | exact h37 | exact isCents_add h37 hc)
        | (rw [c52]; first | exact h52 | exact isCents_add h52 hc)
        | (rw [c07]; first | exact h07 | exact isCents_add h07 hc)
  · obtain ⟨e0, e22, e29, e06, e37, e52, e07, -⟩ := eingangKz_frame s.kz
      (strOr inv.tax_treatment "normal") (numOr inv.vat_rate 20)
      (numOr inv.net_amount 0) (numOr inv.vat_amount 0)
    exact ⟨e0 ▸ h0, e22 ▸ h22, e29 ▸ h29, e06 ▸ h06, e37 ▸ h37, e52 ▸ h52, e07 ▸ h07⟩

/-! ## Fold-level invariants -/

lemma foldl_kz062 (l : List Invoice) : ∀ s : CalcState,
    (l.foldl processInvoice s).kz.kz062_vorsteuer = s.kz.kz062_vorsteuer := by
  induction l with
  | nil => intro s; rfl
  | cons a l ih =>
      intro s
      rw [List.foldl_cons, ih, processInvoice_kz062]

lemma foldl_pairs (l : List Invoice) : ∀ s : CalcState,
    ((l.foldl processInvoice s).kz.kz057_ust - (l.foldl processInvoice s).kz.kz066_vorsteuer
      = s.kz.kz057_ust - s.kz.kz066_vorsteuer) ∧
    ((l.foldl processInvoice s).kz.kz048_ust - (l.foldl processInvoice s).kz.kz082_vorsteuer
      = s.kz.kz048_ust - s.kz.kz082_vorsteuer) ∧
    ((l.foldl processInvoice s).kz.kz044_ust - (l.foldl processInvoice s).kz.kz087_vorsteuer
      = s.kz.kz044_ust - s.kz.kz087_vorsteuer) ∧
    ((l.foldl processInvoice s).kz.kz032_ust - (l.foldl processInvoice s).kz.kz089_vorsteuer
      = s.kz.kz032_ust - s.kz.kz089_vorsteuer) := by
  induction l with
  | nil => intro s; exact ⟨rfl, rfl, rfl, rfl⟩
  | cons a l ih =>
      intro s
      obtain ⟨p1, p2, p3, p4⟩ := processInvoice_pairs s a
      obtain ⟨q1, q2, q3, q4⟩ := ih (processInvoice s a)
      rw [List.foldl_cons]
      exact ⟨by rw [q1, p1], by rw [q2, p2], by rw [q3, p3], by rw [q4, p4]⟩

lemma foldl_kz000 (l : List Invoice) : ∀ s : CalcState,
    (l.foldl processInvoice s).kz.kz000_netto =
      s.kz.kz000_netto + sumNetAusgangProcessed l := by
  induction l with
  | nil => intro s; simp [sumNetAusgangProcessed]
  | cons a l ih =>
      intro s
      rw [List.foldl_cons, ih, processInvoice_kz000]
      simp only [sumNetAusgangProcessed, List.map_cons, List.sum_cons]
      ring

lemma foldl_rateNettoSum (l : List Invoice) : ∀ s : CalcState,
    rateNettoSum (l.foldl processInvoice s).kz =
      rateNettoSum s.kz + sumNetAusgangTaxable l := by
  induction l with
  | nil => intro s; simp [sumNetAusgangTaxable]
  | cons a l ih =>
      intro s
      rw [List.foldl_cons, ih, processInvoice_rateNettoSum]
      simp only [sumNetAusgangTaxable, List.map_cons, List.sum_cons]
      have hsame :
          (if strOr a.invoice_type "eingang" = "ausgang" ∧
              strOr a.tax_treatment "normal" ∉ exemptTreatments ∧
              ¬(numOr a.net_amount 0 = 0 ∧ numOr a.gross_amount 0 = 0)
           then numOr a.net_amount 0 else 0) =
          (if strOr a.invoice_type "eingang" = "ausgang" ∧
              strOr a.tax_treatment "normal" ∉ exemptTreatments
           then numOr a.net_amount 0 else 0) := by
        by_cases hz : numOr a.net_amount 0 = 0 ∧ numOr a.gross_amount 0 = 0
        · simp [hz, hz.1]
        · simp [hz]
      rw [hsame]
      ring

lemma foldl_nettoCents (l : List Invoice)
    (h : ∀ inv ∈ l, isCents (numOr inv.net_amount 0)) : ∀ s : CalcState,
    nettoCents s.kz → nettoCents (l.foldl processInvoice s).kz := by
  induction l with
  | nil => intro s hs; exact hs
  | cons a l ih =>
      intro s hs
      rw [List.foldl_cons]
      exact ih (fun inv hm => h inv (List.mem_cons_of_mem a hm))
        (processInvoice s a)
        (processInvoice_nettoCents s a (h a (List.mem_cons_self a l)) hs)

lemma foldl_ids (l : List Invoice) : ∀ s : CalcState,
    (l.foldl processInvoice s).processedInvoiceIds =
      s.processedInvoiceIds ++ l.map (fun i => i.id) := by
  induction l with
  | nil => intro s; simp
  | cons a l ih =>
      intro s
      rw [List.foldl_cons, ih, processInvoice_ids]
      simp

lemma foldl_warnings_mono (l : List Invoice) : ∀ s : CalcState,
    ∃ t, (l.foldl processInvoice s).warnings = s.warnings ++ t := by
  induction l with
  | nil => intro s; exact ⟨[], by simp⟩
  | cons a l ih =>
      intro s
      obtain ⟨t, ht⟩ := ih (processInvoice s a)
      rw [List.foldl_cons] at *
      rw [ht, processInvoice_warnings]
      exact ⟨_, by rw [List.append_assoc]⟩

lemma foldl_warning_mem (l : List Invoice) (inv : Invoice) (hmem : inv ∈ l)
    (w : Warning)
    (hw : w ∈ (if numOr inv.net_amount 0 = 0 ∧ numOr inv.gross_amount 0 = 0 then
        [Warning.zeroAmount (strOr inv.invoice_number inv.id)]
      else
        vatWarning (strOr inv.tax_treatment "normal") (numOr inv.vat_rate 20)
          (numOr inv.net_amount 0) (numOr inv.vat_amount 0)
          (strOr inv.invoice_number inv.id))) :
    ∀ s : CalcState, w ∈ (l.foldl processInvoice s).warnings := by
  induction l with
  | nil => cases hmem
  | cons a l ih =>
      intro s
      rw [List.foldl_cons]
      rcases List.mem_cons.mp hmem with heq | hmem2
      · subst heq
        obtain ⟨t, ht⟩ := foldl_warnings_mono l (processInvoice s inv)
        rw [ht]
        refine List.mem_append_left _ ?_
        rw [processInvoice_warnings]
        exact List.mem_append_right _ hw
      · exact ih hmem2 (processInvoice s a)

/-! ## Bridging lemmas for the calculate record -/

lemma calculate_kz095 (l : List Invoice) (y m : ℕ) :
    (calculate l y m).kz095 =
      round2 (gesamtUst_of (l.foldl processInvoice {}).kz -
        kz090_of (l.foldl processInvoice {}).kz) := rfl

lemma calculate_gesamtUst (l : List Invoice) (y m : ℕ) :
    (calculate l y m).gesamtUst = gesamtUst_of (l.foldl processInvoice {}).kz := rfl

lemma calculate_kz (l : List Invoice) (y m : ℕ) :
    (calculate l y m).kz = roundKz (l.foldl processInvoice {}).kz := rfl

lemma calculate_warnings (l : List Invoice) (y m : ℕ) :
    (calculate l y m).warnings = (l.foldl processInvoice {}).warnings := rfl

lemma calculate_ids (l : List Invoice) (y m : ℕ) :
    (calculate l y m).processedInvoiceIds =
      (l.foldl processInvoice {}).processedInvoiceIds := rfl

/-! ## Further helper lemmas for the ig_erwerb branch -/

lemma addIg_ig_frame (kz : Kz) (key : String) (n v : ℚ) :
    (addIg kz key n v).kz070_netto = kz.kz070_netto ∧
    (addIg kz key n v).kz065_vorsteuer = kz.kz065_vorsteuer := by
  unfold addIg
  split_ifs <;> exact ⟨rfl, rfl⟩

set_option maxHeartbeats 1000000 in
/-- The ig_erwerb branch adds net and VAT to the IG rate bucket selected
by `IG_RATE_MAP` (default 072), net to KZ 070, and VAT to KZ 065. -/
lemma eingangKz_ig_self (kz : Kz) (r n v : ℚ) :
    igNetto (eingangKz kz "ig_erwerb" r n v) ((IG_RATE_MAP r).getD "072")
      = igNetto kz ((IG_RATE_MAP r).getD "072") + n ∧
    igUst (eingangKz kz "ig_erwerb" r n v) ((IG_RATE_MAP r).getD "072")
      = igUst kz ((IG_RATE_MAP r).getD "072") + v ∧
    (eingangKz kz "ig_erwerb" r n v).kz070_netto = kz.kz070_netto + n ∧
    (eingangKz kz "ig_erwerb" r n v).kz065_vorsteuer = kz.kz065_vorsteuer + v := by
  have h70 := (addIg_ig_frame kz ((IG_RATE_MAP r).getD "072") n v).1
  have h65 := (addIg_ig_frame kz ((IG_RATE_MAP r).getD "072") n v).2
  unfold eingangKz
  rw [if_pos rfl]
  refine ⟨?_, ?_, by simp [h70], by simp [h65]⟩ <;>
  · unfold IG_RATE_MAP at *
    split_ifs <;> simp_all [addIg, igNetto, igUst]

/-- A consistent invoice (actual VAT equal to the rounded expected VAT)
produces no VAT-deviation warning, whatever its treatment or rate. -/
lemma vatWarning_of_consistent (t : String) (rate net vat : ℚ) (ref : String)
    (h : vat = round2 (net * rate / 100)) :
    vatWarning t rate net vat ref = [] := by
  unfold vatWarning
  dsimp only
  split_ifs with h1 h2
  · exfalso
    obtain ⟨hlt, hpos⟩ := h2
    rw [h, sub_self, abs_zero] at hlt
    nlinarith
  · rfl
  · rfl

/-- The VAT-deviation warning characterized by one flat condition: it is
emitted exactly when treatment is normal, rate and net are positive, the
rounded expected VAT is positive, and the actual VAT deviates from it by
more than 2% of it. -/
lemma vatWarning_eq (t : String) (rate net vat : ℚ) (ref : String) :
    vatWarning t rate net vat ref =
      (if t = "normal" ∧ 0 < rate ∧ 0 < net ∧
          2/100 * round2 (net * rate / 100) <
            |round2 (net * rate / 100) - vat| ∧
          0 < round2 (net * rate / 100) then
        [Warning.vatDeviation ref vat (round2 (net * rate / 100))]
      else []) := by
  unfold vatWarning
  dsimp only
  split_ifs <;> first | rfl | tauto

/-- A zero-amount invoice (net and gross both zero) is skipped: the KZ
map and every per-type summary count are left unchanged by its step. -/
lemma processInvoice_skip (s : CalcState) (inv : Invoice)
    (hz : numOr inv.net_amount 0 = 0 ∧ numOr inv.gross_amount 0 = 0) :
    (processInvoice s inv).kz = s.kz ∧
    (processInvoice s inv).ausgangCount = s.ausgangCount ∧
    (processInvoice s inv).eingangCount = s.eingangCount ∧
    (processInvoice s inv).igCount = s.igCount ∧
    (processInvoice s inv).rcCount = s.rcCount := by
  unfold processInvoice
  dsimp only
  rw [if_pos hz]
  exact ⟨rfl, rfl, rfl, rfl, rfl⟩

/-- Reduction of `processInvoice` for a non-skipped eingang invoice. -/
lemma processInvoice_eingang (s : CalcState) (inv : Invoice)
    (htype : strOr inv.invoice_type "eingang" = "eingang")
    (hnz : ¬(numOr inv.net_amount 0 = 0 ∧ numOr inv.gross_amount 0 = 0)) :
    (processInvoice s inv).kz = eingangKz s.kz (strOr inv.tax_treatment "normal")
      (numOr inv.vat_rate 20) (numOr inv.net_amount 0) (numOr inv.vat_amount 0) := by
  unfold processInvoice
  dsimp only
  rw [if_neg hnz, htype]
  simp

/-! ## Claim theorems -/

/-- C1: for every invoice list and period, `calculate` returns
`kz095 = round2(gesamtUst − summeVorsteuer)`, where `summeVorsteuer` is
the (rounded) sum over all twelve input-VAT-credit buckets with every
bucket, including 062, added; the sonstige-Berichtigungen adjustment
(KZ 090 of the U30 form) does not exist in this revision and is
identically zero, and the returned `zahllast` equals `kz095`, so a
positive value is the Zahllast and a negative one the Gutschrift.  The
formula agrees with the code's `gesamtUst − kz090` because the 062
accumulator is never incremented by any branch of the engine. -/
theorem C1_kz095_formula (l : List Invoice) (y m : ℕ) :
    (calculate l y m).kz095 =
      round2 ((calculate l y m).gesamtUst -
        round2 (summeVorsteuerSpec (l.foldl processInvoice {}).kz)) ∧
    (calculate l y m).zahllast = (calculate l y m).kz095 := by
  refine ⟨?_, rfl⟩
  rw [calculate_kz095, calculate_gesamtUst]
  have h062 : (l.foldl processInvoice {}).kz.kz062_vorsteuer = 0 := by
    rw [foldl_kz062]
  have hk : kz090_of (l.foldl processInvoice {}).kz =
      round2 (summeVorsteuerSpec (l.foldl processInvoice {}).kz) := by
    unfold kz090_of summeVorsteuerSpec
    rw [h062]
    norm_num
  rw [hk]

/-- C2: after `calculate`, each reverse-charge output-VAT bucket equals
its paired input-VAT-credit bucket exactly (057 = 066, 048 = 082,
044 = 087, 032 = 089): every eingang reverse-charge branch adds the same
VAT to both buckets of its pair, and no other branch touches them. -/
theorem C2_reverse_charge_symmetry (l : List Invoice) (y m : ℕ) :
    (calculate l y m).kz.kz057_ust = (calculate l y m).kz.kz066_vorsteuer ∧
    (calculate l y m).kz.kz048_ust = (calculate l y m).kz.kz082_vorsteuer ∧
    (calculate l y m).kz.kz044_ust = (calculate l y m).kz.kz087_vorsteuer ∧
    (calculate l y m).kz.kz032_ust = (calculate l y m).kz.kz089_vorsteuer := by
  obtain ⟨p1, p2, p3, p4⟩ := foldl_pairs l {}
  have q1 : (l.foldl processInvoice {}).kz.kz057_ust
      = (l.foldl processInvoice {}).kz.kz066_vorsteuer := by
    have := p1
    norm_num at this
    linarith
  have q2 : (l.foldl processInvoice {}).kz.kz048_ust
      = (l.foldl processInvoice {}).kz.kz082_vorsteuer := by
    have := p2
    norm_num at this
    linarith
  have q3 : (l.foldl processInvoice {}).kz.kz044_ust
      = (l.foldl processInvoice {}).kz.kz087_vorsteuer := by
    have := p3
    norm_num at this
    linarith
  have q4 : (l.foldl processInvoice {}).kz.kz032_ust
      = (l.foldl processInvoice {}).kz.kz089_vorsteuer := by
    have := p4
    norm_num at this
    linarith
  rw [calculate_kz]
  exact ⟨congrArg round2 q1, congrArg round2 q2, congrArg round2 q3,
    congrArg round2 q4⟩

/-- C3 counterexample: an eingang ig_erwerb invoice with nonzero VAT but
zero net and gross amounts is skipped by the zero-amount check, so its
VAT (5) is never added to the 065 credit bucket or the IG rate bucket,
contradicting the claim that every eingang ig_erwerb invoice has its VAT
added. -/
theorem C3_counterexample :
    numOr igZeroInvoice.vat_amount 0 = 5 ∧
    (calculate [igZeroInvoice] 2026 1).kz.kz065_vorsteuer = 0 ∧
    (calculate [igZeroInvoice] 2026 1).kz.kz070_netto = 0 ∧
    (calculate [igZeroInvoice] 2026 1).kz.kz072_ust = 0 := by
  refine ⟨by norm_num [igZeroInvoice, numOr], ?_, ?_, ?_⟩ <;>
  · simp [calculate, processInvoice, igZeroInvoice, numOr, strOr, roundKz]
    norm_num [round2]

/-- C3 amended: for every eingang ig_erwerb invoice that passes the
zero-amount check (net and gross not both zero), one processing step adds
its net and VAT to the IG rate bucket given by the table 20→072, 10→073,
13→008, 19→088 (default 072), its net to the IG total bucket 070, and its
VAT to the input-VAT-credit bucket 065 for intra-Community acquisitions. -/
theorem C3_amended (s : CalcState) (inv : Invoice)
    (htype : strOr inv.invoice_type "eingang" = "eingang")
    (htreat : strOr inv.tax_treatment "normal" = "ig_erwerb")
    (hnz : ¬(numOr inv.net_amount 0 = 0 ∧ numOr inv.gross_amount 0 = 0)) :
    (IG_RATE_MAP 20 = some "072" ∧ IG_RATE_MAP 10 = some "073" ∧
     IG_RATE_MAP 13 = some "008" ∧ IG_RATE_MAP 19 = some "088") ∧
    igNetto (processInvoice s inv).kz
        ((IG_RATE_MAP (numOr inv.vat_rate 20)).getD "072")
      = igNetto s.kz ((IG_RATE_MAP (numOr inv.vat_rate 20)).getD "072")
        + numOr inv.net_amount 0 ∧
    igUst (processInvoice s inv).kz
        ((IG_RATE_MAP (numOr inv.vat_rate 20)).getD "072")
      = igUst s.kz ((IG_RATE_MAP (numOr inv.vat_rate 20)).getD "072")
        + numOr inv.vat_amount 0 ∧
    (processInvoice s inv).kz.kz070_netto
      = s.kz.kz070_netto + numOr inv.net_amount 0 ∧
    (processInvoice s inv).kz.kz065_vorsteuer
      = s.kz.kz065_vorsteuer + numOr inv.vat_amount 0 := by
  have hkz := processInvoice_eingang s inv htype hnz
  rw [htreat] at hkz
  obtain ⟨g1, g2, g3, g4⟩ := eingangKz_ig_self s.kz (numOr inv.vat_rate 20)
    (numOr inv.net_amount 0) (numOr inv.vat_amount 0)
  refine ⟨⟨?_, ?_, ?_, ?_⟩, ?_, ?_, ?_, ?_⟩
  · norm_num [IG_RATE_MAP]
  · norm_num [IG_RATE_MAP]
  · norm_num [IG_RATE_MAP]
  · norm_num [IG_RATE_MAP]
  · rw [hkz]; exact g1
  · rw [hkz]; exact g2
  · rw [hkz]; exact g3
  · rw [hkz]; exact g4

/-- Witness for C3: the amended statement evaluated on a concrete 10%
ig_erwerb invoice (net 200, VAT 20). -/
theorem C3_amended_witness :
    (strOr igErwerb10Invoice.invoice_type "eingang" = "eingang" ∧
     strOr igErwerb10Invoice.tax_treatment "normal" = "ig_erwerb" ∧
     ¬(numOr igErwerb10Invoice.net_amount 0 = 0 ∧
       numOr igErwerb10Invoice.gross_amount 0 = 0)) ∧
    (processInvoice {} igErwerb10Invoice).kz.kz070_netto
      = ({} : CalcState).kz.kz070_netto + numOr igErwerb10Invoice.net_amount 0 ∧
    (processInvoice {} igErwerb10Invoice).kz.kz065_vorsteuer
      = ({} : CalcState).kz.kz065_vorsteuer + numOr igErwerb10Invoice.vat_amount 0 := by
  have h1 : strOr igErwerb10Invoice.invoice_type "eingang" = "eingang" := rfl
  have h2 : strOr igErwerb10Invoice.tax_treatment "normal" = "ig_erwerb" := rfl
  have h3 : ¬(numOr igErwerb10Invoice.net_amount 0 = 0 ∧
      numOr igErwerb10Invoice.gross_amount 0 = 0) := by
    norm_num [igErwerb10Invoice, numOr]
  exact ⟨⟨h1, h2, h3⟩, (C3_amended {} igErwerb10Invoice h1 h2 h3).2.2.2⟩

set_option maxHeartbeats 4000000 in
/-- C4: the two full revisions of the calculate function in the
repository are not equivalent.  On an einfuhr invoice the current
revision credits bucket 061 while the older one credits 065; on an
eust_abgabenkonto invoice the current credits 083 while the older
credits 062; on an ig_erwerb invoice the current credits 065 while the
older credits 061; and on a KZ map with 062 = 1 the current
deductible-total formula subtracts 1 (`-Math.abs`) where the older
`summeVorsteuer` adds 1. -/
theorem C4_revisions_divergent :
    (calculate [einfuhrInvoice] 2026 3).kz.kz061_vorsteuer = 10 ∧
    (oldCalculate [einfuhrInvoice] 2026 3).kz.kz061_vorsteuer = 0 ∧
    (oldCalculate [einfuhrInvoice] 2026 3).kz.kz065_vorsteuer = 10 ∧
    (calculate [eustInvoice] 2026 3).kz.kz083_vorsteuer = 10 ∧
    (oldCalculate [eustInvoice] 2026 3).kz.kz083_vorsteuer = 0 ∧
    (oldCalculate [eustInvoice] 2026 3).kz.kz062_vorsteuer = 10 ∧
    (calculate [igErwerbInvoice] 2026 3).kz.kz065_vorsteuer = 20 ∧
    (oldCalculate [igErwerbInvoice] 2026 3).kz.kz065_vorsteuer = 0 ∧
    (oldCalculate [igErwerbInvoice] 2026 3).kz.kz061_vorsteuer = 20 ∧
    kz090_of { kz062_vorsteuer := 1 } = -1 ∧
    oldSummeVorsteuer_of { kz062_vorsteuer := 1 } = 1 := by
  refine ⟨?_, ?_, ?_, ?_, ?_, ?_, ?_, ?_, ?_, ?_, ?_⟩
  · simp [calculate, processInvoice, einfuhrInvoice, numOr, strOr, vatWarning,
      eingangKz, roundKz]
    norm_num [round2]
  · simp [oldCalculate, oldProcessInvoice, einfuhrInvoice, numOr, strOr,
      oldEingangKz]
  · simp [oldCalculate, oldProcessInvoice, einfuhrInvoice, numOr, strOr,
      oldEingangKz]
  · simp [calculate, processInvoice, eustInvoice, numOr, strOr, vatWarning,
      eingangKz, roundKz]
    norm_num [round2]
  · simp [oldCalculate, oldProcessInvoice, eustInvoice, numOr, strOr,
      oldEingangKz]
  · simp [oldCalculate, oldProcessInvoice, eustInvoice, numOr, strOr,
      oldEingangKz]
  · simp [calculate, processInvoice, igErwerbInvoice, numOr, strOr, vatWarning,
      eingangKz, addIg, IG_RATE_MAP, roundKz]
    norm_num [round2]
  · simp [oldCalculate, oldProcessInvoice, igErwerbInvoice, numOr, strOr,
      oldEingangKz, oldAddIg, igRateToKZ]
  · simp [oldCalculate, oldProcessInvoice, igErwerbInvoice, numOr, strOr,
      oldEingangKz, oldAddIg, igRateToKZ]
  · simp [kz090_of]
    norm_num [round2]
  · norm_num [oldSummeVorsteuer_of]

/-- C5 counterexample: an ausgang invoice with a reverse-charge treatment
has tax_treatment different from normal, yet the ausgang dispatch routes
its net (100) into the 20% rate bucket, so the rate-bucket `_netto` sum
(100) differs from the sum of net over ausgang/normal invoices (0). -/
theorem C5_counterexample :
    sumNetAusgangNormal [ausgangRcInvoice] = 0 ∧
    rateNettoSum (calculate [ausgangRcInvoice] 2026 3).kz = 100 := by
  constructor
  · simp [sumNetAusgangNormal, ausgangRcInvoice, strOr]
  · have hsw : jsStartsWith "reverse_charge_19_1" "reverse_charge" = true := by
      decide
    simp [rateNettoSum, calculate, processInvoice, ausgangRcInvoice, numOr,
      strOr, vatWarning, ausgangKz, ausgangDispatch, add021, addRate, RATE_MAP,
      hsw, roundKz]
    norm_num [round2]

/-- C5 amended: for invoice sets whose net amounts are whole cents (the
data model's 2-decimal fixed point), the sum of the rate-bucket `_netto`
fields of the returned KZ map equals Σ net over the ausgang invoices that
reach the rate-bucket branch, i.e. whose treatment is none of the eight
exemption treatments — not only those with treatment normal. -/
theorem C5_amended (l : List Invoice) (y m : ℕ)
    (h : ∀ inv ∈ l, isCents (numOr inv.net_amount 0)) :
    rateNettoSum (calculate l y m).kz = sumNetAusgangTaxable l := by
  obtain ⟨c0, c22, c29, c06, c37, c52, c07⟩ :=
    foldl_nettoCents l h {} ⟨isCents_zero, isCents_zero, isCents_zero,
      isCents_zero, isCents_zero, isCents_zero, isCents_zero⟩
  have hsum := foldl_rateNettoSum l {}
  rw [calculate_kz]
  have e : rateNettoSum (roundKz (l.foldl processInvoice {}).kz) =
      rateNettoSum (l.foldl processInvoice {}).kz := by
    show round2 (l.foldl processInvoice {}).kz.kz022_netto +
        round2 (l.foldl processInvoice {}).kz.kz029_netto +
        round2 (l.foldl processInvoice {}).kz.kz006_netto +
        round2 (l.foldl processInvoice {}).kz.kz037_netto +
        round2 (l.foldl processInvoice {}).kz.kz052_netto +
        round2 (l.foldl processInvoice {}).kz.kz007_netto = _
    rw [round2_of_isCents c22, round2_of_isCents c29, round2_of_isCents c06,
      round2_of_isCents c37, round2_of_isCents c52, round2_of_isCents c07]
    rfl
  rw [e, hsum]
  norm_num [rateNettoSum]

/-- Witness for C5: the amended statement evaluated on one ordinary
ausgang invoice with net 100. -/
theorem C5_amended_witness :
    (∀ inv ∈ [normalAusgangInvoice], isCents (numOr inv.net_amount 0)) ∧
    rateNettoSum (calculate [normalAusgangInvoice] 2026 3).kz =
      sumNetAusgangTaxable [normalAusgangInvoice] := by
  have h : ∀ inv ∈ [normalAusgangInvoice], isCents (numOr inv.net_amount 0) := by
    intro inv hm
    rw [List.mem_singleton] at hm
    subst hm
    exact ⟨10000, by norm_num [normalAusgangInvoice, numOr]⟩
  exact ⟨h, C5_amended [normalAusgangInvoice] 2026 3 h⟩

/-- C6 counterexample: a zero-amount ausgang invoice produces a warning
but is then skipped — it is counted in invoice_count yet neither in
ausgang_count nor in the KZ map, so it is not "still processed into the
KZ map and the summary counts"; and an eingang reverse-charge invoice
whose VAT (7) deviates from the expected value (20) by far more than 2%
produces no warning at all, because the consistency check only runs for
treatment normal. -/
theorem C6_counterexample :
    (calculate [zeroAusgangInvoice] 2026 1).invoiceCount = 1 ∧
    (calculate [zeroAusgangInvoice] 2026 1).ausgangCount = 0 ∧
    rateNettoSum (calculate [zeroAusgangInvoice] 2026 1).kz = 0 ∧
    2/100 * round2 (numOr rcDeviatingInvoice.net_amount 0 *
        numOr rcDeviatingInvoice.vat_rate 20 / 100) <
      |round2 (numOr rcDeviatingInvoice.net_amount 0 *
        numOr rcDeviatingInvoice.vat_rate 20 / 100) -
        numOr rcDeviatingInvoice.vat_amount 0| ∧
    (calculate [rcDeviatingInvoice] 2026 1).warnings = [] := by
  refine ⟨rfl, ?_, ?_, ?_, ?_⟩
  · simp [calculate, processInvoice, zeroAusgangInvoice, numOr, strOr]
  · simp [rateNettoSum, calculate, processInvoice, zeroAusgangInvoice, numOr,
      strOr, roundKz]
    norm_num [round2]
  · norm_num [rcDeviatingInvoice, numOr, round2]
  · simp [calculate, processInvoice, rcDeviatingInvoice, numOr, strOr,
      vatWarning]

/-- C6 amended: each processing step appends exactly the warnings the
amended text describes — a zero-amount warning when net and gross are
both zero, and otherwise a VAT-deviation warning exactly when treatment
is normal, rate and net are positive, the rounded expected VAT is
positive and the actual VAT deviates from it by more than 2% of it (so
no warning arises in any other case); a zero-amount invoice is skipped:
its step leaves the KZ map and every per-type summary count unchanged;
and no invoice is ever rejected — every invoice has its id recorded by
its step, is counted in invoice_count, and its warnings reach the
returned warning list. -/
theorem C6_amended (s : CalcState) (l : List Invoice) (y m : ℕ)
    (inv : Invoice) (hmem : inv ∈ l) :
    (processInvoice s inv).warnings = s.warnings ++
      (if numOr inv.net_amount 0 = 0 ∧ numOr inv.gross_amount 0 = 0 then
        [Warning.zeroAmount (strOr inv.invoice_number inv.id)]
      else if strOr inv.tax_treatment "normal" = "normal" ∧
          0 < numOr inv.vat_rate 20 ∧ 0 < numOr inv.net_amount 0 ∧
          2/100 * round2 (numOr inv.net_amount 0 *
            numOr inv.vat_rate 20 / 100) <
            |round2 (numOr inv.net_amount 0 * numOr inv.vat_rate 20 / 100) -
              numOr inv.vat_amount 0| ∧
          0 < round2 (numOr inv.net_amount 0 * numOr inv.vat_rate 20 / 100)
        then
        [Warning.vatDeviation (strOr inv.invoice_number inv.id)
          (numOr inv.vat_amount 0)
          (round2 (numOr inv.net_amount 0 * numOr inv.vat_rate 20 / 100))]
      else []) ∧
    ((numOr inv.net_amount 0 = 0 ∧ numOr inv.gross_amount 0 = 0) →
      (processInvoice s inv).kz = s.kz ∧
      (processInvoice s inv).ausgangCount = s.ausgangCount ∧
      (processInvoice s inv).eingangCount = s.eingangCount ∧
      (processInvoice s inv).igCount = s.igCount ∧
      (processInvoice s inv).rcCount = s.rcCount) ∧
    (processInvoice s inv).processedInvoiceIds
      = s.processedInvoiceIds ++ [inv.id] ∧
    (calculate l y m).invoiceCount = l.length ∧
    inv.id ∈ (calculate l y m).processedInvoiceIds ∧
    ((numOr inv.net_amount 0 = 0 ∧ numOr inv.gross_amount 0 = 0) →
      Warning.zeroAmount (strOr inv.invoice_number inv.id)
        ∈ (calculate l y m).warnings) ∧
    (¬(numOr inv.net_amount 0 = 0 ∧ numOr inv.gross_amount 0 = 0) →
      strOr inv.tax_treatment "normal" = "normal" →
      0 < numOr inv.vat_rate 20 → 0 < numOr inv.net_amount 0 →
      2/100 * round2 (numOr inv.net_amount 0 * numOr inv.vat_rate 20 / 100) <
        |round2 (numOr inv.net_amount 0 * numOr inv.vat_rate 20 / 100) -
          numOr inv.vat_amount 0| →
      0 < round2 (numOr inv.net_amount 0 * numOr inv.vat_rate 20 / 100) →
      Warning.vatDeviation (strOr inv.invoice_number inv.id)
          (numOr inv.vat_amount 0)
          (round2 (numOr inv.net_amount 0 * numOr inv.vat_rate 20 / 100))
        ∈ (calculate l y m).warnings) := by
  refine ⟨?_, processInvoice_skip s inv, processInvoice_ids s inv, rfl,
    ?_, ?_, ?_⟩
  · rw [processInvoice_warnings, vatWarning_eq]
  · rw [calculate_ids, foldl_ids]
    simp only [List.nil_append, List.mem_map]
    exact ⟨inv, hmem, rfl⟩
  · intro hz
    rw [calculate_warnings]
    exact foldl_warning_mem l inv hmem _
      (by rw [if_pos hz]; exact List.mem_singleton_self _) {}
  · intro hnz htreat hrate hnet hdev hpos
    rw [calculate_warnings]
    refine foldl_warning_mem l inv hmem _ ?_ {}
    rw [if_neg hnz]
    unfold vatWarning
    dsimp only
    rw [if_pos ⟨htreat, hrate, hnet⟩, if_pos ⟨hdev, hpos⟩]
    exact List.mem_singleton_self _

/-- Witness for C6: the amended statement evaluated on a concrete
zero-amount ausgang invoice — it is warned about, skipped from the KZ
map and the type counts, and still recorded. -/
theorem C6_amended_witness :
    zeroAusgangInvoice ∈ [zeroAusgangInvoice] ∧
    (numOr zeroAusgangInvoice.net_amount 0 = 0 ∧
      numOr zeroAusgangInvoice.gross_amount 0 = 0) ∧
    (processInvoice {} zeroAusgangInvoice).kz = ({} : CalcState).kz ∧
    (processInvoice {} zeroAusgangInvoice).ausgangCount
      = ({} : CalcState).ausgangCount ∧
    Warning.zeroAmount
        (strOr zeroAusgangInvoice.invoice_number zeroAusgangInvoice.id)
      ∈ (calculate [zeroAusgangInvoice] 2026 1).warnings := by
  have hmem : zeroAusgangInvoice ∈ [zeroAusgangInvoice] :=
    List.mem_singleton_self _
  have hz : numOr zeroAusgangInvoice.net_amount 0 = 0 ∧
      numOr zeroAusgangInvoice.gross_amount 0 = 0 := by
    norm_num [zeroAusgangInvoice, numOr]
  obtain ⟨-, hskip, -, -, -, hzero, -⟩ :=
    C6_amended {} [zeroAusgangInvoice] 2026 1 zeroAusgangInvoice hmem
  exact ⟨hmem, hz, (hskip hz).1, (hskip hz).2.1, hzero hz⟩

/-- C7: for every period with 1 ≤ month ≤ 12, the due date returned by
`calculate` is the 15th of month+2 — the due (year, month) pair is two
calendar months after the period, with the year rolled forward exactly
when month+2 exceeds 12, and the date string is built from those parts. -/
theorem C7_due_date (l : List Invoice) (y m : ℕ) (h1 : 1 ≤ m) (h2 : m ≤ 12) :
    1 ≤ (calculate l y m).due_month ∧ (calculate l y m).due_month ≤ 12 ∧
    12 * (calculate l y m).due_year + ((calculate l y m).due_month - 1)
      = 12 * y + (m - 1) + 2 ∧
    (calculate l y m).due_year = (if 12 < m + 2 then y + 1 else y) ∧
    (calculate l y m).due_date = toString (calculate l y m).due_year ++ "-"
      ++ pad2 (calculate l y m).due_month ++ "-15" := by
  have hm : (calculate l y m).due_month = dueMonth m := rfl
  have hy : (calculate l y m).due_year = dueYear y m := rfl
  refine ⟨?_, ?_, ?_, ?_, rfl⟩
  · rw [hm]; unfold dueMonth; split_ifs <;> omega
  · rw [hm]; unfold dueMonth; split_ifs <;> omega
  · rw [hm, hy]; unfold dueMonth dueYear; split_ifs <;> omega
  · rw [hy]; rfl

/-- Witness for C7: period 2026-11 rolls over to a due date in January
of the following year. -/
theorem C7_due_date_witness :
    (1 ≤ 11 ∧ 11 ≤ 12) ∧
    1 ≤ (calculate [] 2026 11).due_month ∧
    (calculate [] 2026 11).due_month ≤ 12 ∧
    12 * (calculate [] 2026 11).due_year + ((calculate [] 2026 11).due_month - 1)
      = 12 * 2026 + (11 - 1) + 2 ∧
    (calculate [] 2026 11).due_year = (if 12 < 11 + 2 then 2026 + 1 else 2026) ∧
    (calculate [] 2026 11).due_date = toString (calculate [] 2026 11).due_year
      ++ "-" ++ pad2 (calculate [] 2026 11).due_month ++ "-15" :=
  ⟨⟨by norm_num, by norm_num⟩, C7_due_date [] 2026 11 (by norm_num) (by norm_num)⟩

/-- C8: the audit-log insert sits in its own try/catch whose handler only
logs, so when the upsert succeeded the handler returns the same success
response whatever the audit insert does — in particular when it fails. -/
theorem C8_audit_log_failure_not_blocking (row : CalcResult) (e : String)
    (audit : CalcResult → Except String Unit) :
    serveTail (Except.ok row) (fun _ => Except.error e)
      = HttpResponse.success row ∧
    serveTail (Except.ok row) audit = HttpResponse.success row := by
  constructor
  · rfl
  · cases haudit : audit row <;>
      simp [serveTail, uvaUpsertThenRespond, haudit]

/-- C9: a missing or zero vat_rate silently defaults to 20; an
ausgang/normal invoice whose rate is not in RATE_MAP is routed to the 022
bucket; an eingang ig_erwerb invoice whose rate is not in IG_RATE_MAP is
routed to the 072 bucket; and an invoice that passes the zero-amount
check and whose VAT matches the expected value produces no warning at
all, whatever its rate — the unknown rate itself never triggers a warning
or error. -/
theorem C9_silent_rate_defaulting :
    (∀ inv : Invoice, inv.vat_rate = none ∨ inv.vat_rate = some 0 →
      numOr inv.vat_rate 20 = 20) ∧
    (∀ (kz : Kz) (r n v : ℚ), RATE_MAP r = none →
      (ausgangKz kz "normal" r n v).kz022_netto = kz.kz022_netto + n ∧
      (ausgangKz kz "normal" r n v).kz022_ust = kz.kz022_ust + v) ∧
    (∀ (kz : Kz) (r n v : ℚ), IG_RATE_MAP r = none →
      (eingangKz kz "ig_erwerb" r n v).kz072_netto = kz.kz072_netto + n ∧
      (eingangKz kz "ig_erwerb" r n v).kz072_ust = kz.kz072_ust + v) ∧
    (∀ (s : CalcState) (inv : Invoice),
      ¬(numOr inv.net_amount 0 = 0 ∧ numOr inv.gross_amount 0 = 0) →
      numOr inv.vat_amount 0 =
        round2 (numOr inv.net_amount 0 * numOr inv.vat_rate 20 / 100) →
      (processInvoice s inv).warnings = s.warnings) := by
  refine ⟨?_, ?_, ?_, ?_⟩
  · intro inv h
    rcases h with h | h <;> simp [numOr, h]
  · intro kz r n v hr
    have hsw : jsStartsWith "normal" "reverse_charge" = false := by decide
    constructor <;>
      simp [ausgangKz, ausgangDispatch, add021, addRate, hr, hsw]
  · intro kz r n v hr
    constructor <;> simp [eingangKz, addIg, hr]
  · intro s inv hnz hcons
    rw [processInvoice_warnings, if_neg hnz,
      vatWarning_of_consistent _ _ _ _ _ hcons]
    simp

/-- Witness for C9: the defaults evaluated at concrete inputs, among them
the untabulated 5% rate. -/
theorem C9_silent_rate_defaulting_witness :
    numOr ({ id := "w" } : Invoice).vat_rate 20 = 20 ∧
    (RATE_MAP 5 = none ∧
      (ausgangKz {} "normal" 5 100 5).kz022_netto = ({} : Kz).kz022_netto + 100) ∧
    (IG_RATE_MAP 5 = none ∧
      (eingangKz {} "ig_erwerb" 5 100 5).kz072_netto
        = ({} : Kz).kz072_netto + 100) ∧
    (¬(numOr rate5Invoice.net_amount 0 = 0 ∧
        numOr rate5Invoice.gross_amount 0 = 0) ∧
      numOr rate5Invoice.vat_amount 0 =
        round2 (numOr rate5Invoice.net_amount 0 *
          numOr rate5Invoice.vat_rate 20 / 100) ∧
      (processInvoice {} rate5Invoice).warnings = ({} : CalcState).warnings) := by
  have hr5 : RATE_MAP 5 = none := by norm_num [RATE_MAP]
  have hig5 : IG_RATE_MAP 5 = none := by norm_num [IG_RATE_MAP]
  have hnz : ¬(numOr rate5Invoice.net_amount 0 = 0 ∧
      numOr rate5Invoice.gross_amount 0 = 0) := by
    norm_num [rate5Invoice, numOr]
  have hcons : numOr rate5Invoice.vat_amount 0 =
      round2 (numOr rate5Invoice.net_amount 0 *
        numOr rate5Invoice.vat_rate 20 / 100) := by
    norm_num [rate5Invoice, numOr, round2]
  exact ⟨C9_silent_rate_defaulting.1 _ (Or.inl rfl),
    ⟨hr5, (C9_silent_rate_defaulting.2.1 {} 5 100 5 hr5).1⟩,
    ⟨hig5, (C9_silent_rate_defaulting.2.2.1 {} 5 100 5 hig5).1⟩,
    ⟨hnz, hcons,
      C9_silent_rate_defaulting.2.2.2 {} rate5Invoice hnz hcons⟩⟩

/-- C10: for invoice sets with whole-cent net amounts, the returned
kz000_netto equals Σ net over the ausgang invoices that pass the
zero-amount check, regardless of tax_treatment — every such invoice adds
its net to the 000 accumulator before the treatment dispatch. -/
theorem C10_kz000_total (l : List Invoice) (y m : ℕ)
    (h : ∀ inv ∈ l, isCents (numOr inv.net_amount 0)) :
    (calculate l y m).kz.kz000_netto = sumNetAusgangProcessed l := by
  obtain ⟨c0, -, -, -, -, -, -⟩ :=
    foldl_nettoCents l h {} ⟨isCents_zero, isCents_zero, isCents_zero,
      isCents_zero, isCents_zero, isCents_zero, isCents_zero⟩
  have hsum := foldl_kz000 l {}
  rw [calculate_kz]
  show round2 (l.foldl processInvoice {}).kz.kz000_netto = _
  rw [round2_of_isCents c0, hsum]
  simp

/-- Witness for C10: evaluated on an ausgang invoice (net 100) and an
eingang invoice; kz000 collects only the ausgang net. -/
theorem C10_kz000_total_witness :
    (∀ inv ∈ [normalAusgangInvoice, einfuhrInvoice],
      isCents (numOr inv.net_amount 0)) ∧
    (calculate [normalAusgangInvoice, einfuhrInvoice] 2026 3).kz.kz000_netto =
      sumNetAusgangProcessed [normalAusgangInvoice, einfuhrInvoice] := by
  have h : ∀ inv ∈ [normalAusgangInvoice, einfuhrInvoice],
      isCents (numOr inv.net_amount 0) := by
    intro inv hm
    rcases List.mem_cons.mp hm with heq | hm2
    · subst heq
      exact ⟨10000, by norm_num [normalAusgangInvoice, numOr]⟩
    · rw [List.mem_singleton] at hm2
      subst hm2
      exact ⟨10000, by norm_num [einfuhrInvoice, numOr]⟩
  exact ⟨h, C10_kz000_total _ 2026 3 h⟩

end UVA
